import Mathlib

/-!
# avahi-client resolvers (`avahi-client/resolver.c`)

A shallow embedding of the three resolver kinds of the Avahi client library
(service, host name, address): creation (`*_new`), release (`*_free`) and the
event routers (`*_event`), followed by theorems about them.

Conventions of the embedding.

* A resolver object is a record carrying its own address (`addr`); a registry
  (the intrusive linked list hanging off the client) is the list of the
  records in list order.  Pointer identity is identity of `addr`.
* A function that writes to the client returns the client it leaves behind.
* A callback invocation is recorded as a value (the arguments of the call);
  the body of the caller-supplied callback is not modelled.
* A remote method call is recorded as a value in the order it was issued.
* The outcome of every step the environment decides (allocation, building a
  message, the blocking round trip) is an input of the embedding.
* Undefined behaviour of the C code (`strcmp` on a null pointer) is the
  result `none` of the routers.
-/

set_option autoImplicit false

namespace Avahi

/-! ## D-Bus messages -/

/-- D-Bus type codes: the basic types the resolver code reads or writes, a few
further basic types, and arrays. -/
inductive DBusType where
  | byte
  | boolean
  | uint16
  | int32
  | uint32
  | string
  | object_path
  | array (elem : DBusType)
  deriving DecidableEq

/-- The values of a D-Bus type.  An array is homogeneous and keeps its element
type even when it is empty, as the signature of a D-Bus message does. -/
@[reducible] def DBusType.val : DBusType → Type
  | .byte => Fin 256
  | .boolean => Bool
  | .uint16 => Nat
  | .int32 => Int
  | .uint32 => Nat
  | .string => String
  | .object_path => String
  | .array elem => List (DBusType.val elem)

/-- One argument of a D-Bus message: its type and a value of that type. -/
structure DBusValue where
  ty : DBusType
  v : ty.val

/-- A D-Bus message as the resolver code sees it: the object path it is
addressed to (`dbus_message_get_path`, null when the message has none) and
its arguments. -/
structure DBusMessage where
  path : Option String
  args : List DBusValue

/-- A set `DBusError`: the error name. -/
structure DBusError where
  name : String
  deriving DecidableEq

/-- The name libdbus gives the error of a failed `dbus_message_get_args`. -/
def DBUS_ERROR_INVALID_ARGS : String := "org.freedesktop.DBus.Error.InvalidArgs"

/-- The library call `dbus_message_get_args(message, &error, t1, &v1, ..., DBUS_TYPE_INVALID)`
of libdbus: the requested types are compared, in order, with the types of the
message arguments; a missing argument or an argument of another type sets the
error.  Arguments after the requested ones are not looked at (the service
router asks for nine arguments of a ten-argument message).  The result is
the list of the arguments read. -/
def dbus_message_get_args : List DBusValue → List DBusType → Except DBusError (List DBusValue)
  | _, [] => .ok []
  | [], _ :: _ => .error ⟨DBUS_ERROR_INVALID_ARGS⟩
  | a :: rest, t :: ts =>
    if a.ty = t then
      match dbus_message_get_args rest ts with
      | .ok vs => .ok (a :: vs)
      | .error e => .error e
    else .error ⟨DBUS_ERROR_INVALID_ARGS⟩

/-- The enum `DBusHandlerResult` of libdbus, as far as the routers use it. -/
inductive DBusHandlerResult where
  | DBUS_HANDLER_RESULT_HANDLED
  | DBUS_HANDLER_RESULT_NOT_YET_HANDLED
  deriving DecidableEq

/-! ## Client session and resolver objects -/

/-- Modelled from the spec: the lifecycle state of the client session
(`AvahiClientState` of `avahi-client/client.h`, outside `resolver.c`), which
"includes at least connected and disconnected"; the resolver code only tests
for `AVAHI_CLIENT_DISCONNECTED`. -/
inductive AvahiClientState where
  | AVAHI_CLIENT_DISCONNECTED
  | AVAHI_CLIENT_CONNECTED
  deriving DecidableEq

/-- Modelled from the spec: the two notification categories
(`AvahiResolverEvent` of `avahi-client/client.h`, outside `resolver.c`). -/
inductive AvahiResolverEvent where
  | AVAHI_RESOLVER_FOUND
  | AVAHI_RESOLVER_TIMEOUT
  deriving DecidableEq

/-- Modelled from the spec: the operation object (`AvahiServiceResolver`,
`AvahiHostNameResolver` and `AvahiAddressResolver` of
`avahi-client/internal.h`, outside `resolver.c`, have the same fields): the
remote-assigned handle `path` (null until the creation reply is stored), the
caller's `callback` and `userdata`.  `addr` is the address of the object; the
back-reference `client` is the session the functions below are given, and the
list links are the position in the registry. -/
structure Resolver where
  addr : Nat
  callback : Nat
  userdata : Nat
  path : Option String
  deriving DecidableEq

abbrev AvahiServiceResolver := Resolver

abbrev AvahiHostNameResolver := Resolver

abbrev AvahiAddressResolver := Resolver

/-- Modelled from the spec: the client session (`AvahiClient` of
`avahi-client/internal.h`, outside `resolver.c`): its state, its single
"last error" slot and one ordered registry per resolver kind. -/
structure AvahiClient where
  state : AvahiClientState
  error : Int
  service_resolvers : List AvahiServiceResolver
  host_name_resolvers : List AvahiHostNameResolver
  address_resolvers : List AvahiAddressResolver
  deriving DecidableEq

/-- Modelled from the spec: the structured address value (`AvahiAddress` of
`avahi-common/address.h`, outside `resolver.c`): the protocol family and the
address bytes. -/
structure AvahiAddress where
  proto : Int
  data : List Nat
  deriving DecidableEq

/-- Modelled from the spec: the metadata of a service, "a sequence of opaque
byte-array records" (`AvahiStringList` of `avahi-common/strlst.h`, outside
`resolver.c`), in the order in which the list is traversed from its head; the
null pointer is the empty list. -/
abbrev AvahiStringList := List (List (Fin 256))

/-- The D-Bus interface names the resolver code addresses (the macros
`AVAHI_DBUS_INTERFACE_*` of `avahi-common/dbus.h`, outside `resolver.c`). -/
inductive AvahiDBusInterface where
  | AVAHI_DBUS_INTERFACE_SERVER
  | AVAHI_DBUS_INTERFACE_SERVICE_RESOLVER
  | AVAHI_DBUS_INTERFACE_HOST_NAME_RESOLVER
  | AVAHI_DBUS_INTERFACE_ADDRESS_RESOLVER
  deriving DecidableEq

/-- The helpers and constants of the Avahi libraries that the resolver code
uses and that are defined outside `resolver.c`; each is a parameter of the
embedding.

* `avahi_address_parse address proto`: the parsed address, or `none` when the
  text does not parse under the family (the C function returns null).
* `avahi_string_list_add_arbitrary l k`: the list after adding the record `k`
  (the `n` bytes at `k`) to `l`.
* `avahi_error_dbus_number e`: the code `avahi_client_set_dbus_error` stores
  for the D-Bus error `e`.
* `simple_method_call_ret path iface method`: the code the blocking call
  `avahi_client_simple_method_call` returns for that method of that object.
* the error codes of `avahi-common/error.h`. -/
structure Ext where
  avahi_address_parse : String → Int → Option AvahiAddress
  avahi_string_list_add_arbitrary : AvahiStringList → List (Fin 256) → AvahiStringList
  avahi_error_dbus_number : DBusError → Int
  simple_method_call_ret : String → AvahiDBusInterface → String → Int
  AVAHI_OK : Int
  AVAHI_ERR_BAD_STATE : Int
  AVAHI_ERR_NO_MEMORY : Int
  AVAHI_ERR_DBUS_ERROR : Int

/-! ## Event routers -/

/-- The lookup loop of the three routers,
`for (r = head; r; r = r->next) if (strcmp (r->path, path) == 0) break;`.
`some (some r)`: the loop stopped at `r`; `some none`: it ran off the end;
`none`: it reached an object whose `path` is null, on which `strcmp` is
undefined. -/
def resolver_lookup (path : String) : List Resolver → Option (Option Resolver)
  | [] => some none
  | r :: rest =>
    match r.path with
    | none => none
    | some p => if p = path then some (some r) else resolver_lookup path rest

/-- What a router leaves behind: the client, the value returned and the
callback invocations it made, in order. -/
structure EventResult (α : Type) where
  client : AvahiClient
  ret : DBusHandlerResult
  calls : List α

/-- The arguments of one invocation of an `AvahiServiceResolverCallback`. -/
structure ServiceResolverCall where
  r : AvahiServiceResolver
  interface : Int
  protocol : Int
  event : AvahiResolverEvent
  name : Option String
  type : Option String
  domain : Option String
  host : Option String
  a : Option AvahiAddress
  port : Nat
  txt : AvahiStringList
  userdata : Nat
  deriving DecidableEq

/-- The element-type test of the metadata loop and the read that follows it:
for an inner array whose element type is `DBUS_TYPE_BYTE`,
`dbus_message_iter_get_fixed_array` gives its bytes; for any other element
type the loop fails (`none`). -/
def DBusType.fixed_bytes : (t : DBusType) → List t.val → Option (List (Fin 256))
  | .byte, k => some k
  | _, _ => none

/-- The metadata loop of `avahi_service_resolver_event` over the elements of
the outer array (`sub`), whose elements are arrays of element type `t`: an
element type other than `DBUS_TYPE_BYTE` fails (`none`); a record of length
greater than zero is added to `strlst`, a record of length zero is stepped
over. -/
def service_resolver_read_txt (X : Ext) (t : DBusType) :
    List (List t.val) → AvahiStringList → Option AvahiStringList
  | [], strlst => some strlst
  | sub2 :: rest, strlst =>
    match t.fixed_bytes sub2 with
    | none => none
    | some k =>
      service_resolver_read_txt X t rest
        (if k.length > 0 then X.avahi_string_list_add_arbitrary strlst k else strlst)

/-- The router `avahi_service_resolver_event`. -/
def avahi_service_resolver_event (X : Ext) (client : AvahiClient) (event : AvahiResolverEvent)
    (message : DBusMessage) : Option (EventResult ServiceResolverCall) :=
  let fail : EventResult ServiceResolverCall :=
    { client := client, ret := .DBUS_HANDLER_RESULT_NOT_YET_HANDLED, calls := [] }
  match message.path with
  | none => some fail
  | some path =>
    match resolver_lookup path client.service_resolvers with
    | none => none
    | some none => some fail
    | some (some r) =>
      match event with
      | .AVAHI_RESOLVER_FOUND =>
        match dbus_message_get_args message.args
            [.int32, .int32, .string, .string, .string, .string, .int32, .string, .uint16] with
        | .ok [⟨.int32, interface⟩, ⟨.int32, protocol⟩, ⟨.string, name⟩, ⟨.string, type⟩,
               ⟨.string, domain⟩, ⟨.string, host⟩, ⟨.int32, aprotocol⟩, ⟨.string, address⟩,
               ⟨.uint16, port⟩] =>
          match (message.args.drop 9).head? with
          | some ⟨.array (.array t), sub⟩ =>
            match service_resolver_read_txt X t sub [] with
            | none => some fail
            | some strlst =>
              match X.avahi_address_parse address aprotocol with
              | none => some fail
              | some a =>
                some { client := client, ret := .DBUS_HANDLER_RESULT_HANDLED,
                       calls := [{ r := r, interface := interface, protocol := protocol,
                                   event := .AVAHI_RESOLVER_FOUND, name := some name,
                                   type := some type, domain := some domain, host := some host,
                                   a := some a, port := port, txt := strlst,
                                   userdata := r.userdata }] }
          | _ => some fail
        | _ => some fail
      | .AVAHI_RESOLVER_TIMEOUT =>
        some { client := client, ret := .DBUS_HANDLER_RESULT_HANDLED,
               calls := [{ r := r, interface := 0, protocol := 0,
                           event := .AVAHI_RESOLVER_TIMEOUT, name := none, type := none,
                           domain := none, host := none, a := none, port := 0, txt := [],
                           userdata := r.userdata }] }

/-- The arguments of one invocation of an `AvahiHostNameResolverCallback`. -/
structure HostNameResolverCall where
  r : AvahiHostNameResolver
  interface : Int
  protocol : Int
  event : AvahiResolverEvent
  name : Option String
  a : Option AvahiAddress
  userdata : Nat
  deriving DecidableEq

/-- The router `avahi_host_name_resolver_event`. -/
def avahi_host_name_resolver_event (X : Ext) (client : AvahiClient) (event : AvahiResolverEvent)
    (message : DBusMessage) : Option (EventResult HostNameResolverCall) :=
  let fail : EventResult HostNameResolverCall :=
    { client := client, ret := .DBUS_HANDLER_RESULT_NOT_YET_HANDLED, calls := [] }
  match message.path with
  | none => some fail
  | some path =>
    match resolver_lookup path client.host_name_resolvers with
    | none => none
    | some none => some fail
    | some (some r) =>
      match event with
      | .AVAHI_RESOLVER_FOUND =>
        match dbus_message_get_args message.args [.int32, .int32, .string, .int32, .string] with
        | .ok [⟨.int32, interface⟩, ⟨.int32, protocol⟩, ⟨.string, name⟩, ⟨.int32, aprotocol⟩,
               ⟨.string, address⟩] =>
          match X.avahi_address_parse address aprotocol with
          | none => some fail
          | some a =>
            some { client := client, ret := .DBUS_HANDLER_RESULT_HANDLED,
                   calls := [{ r := r, interface := interface, protocol := protocol,
                               event := .AVAHI_RESOLVER_FOUND, name := some name, a := some a,
                               userdata := r.userdata }] }
        | _ => some fail
      | .AVAHI_RESOLVER_TIMEOUT =>
        some { client := client, ret := .DBUS_HANDLER_RESULT_HANDLED,
               calls := [{ r := r, interface := 0, protocol := 0,
                           event := .AVAHI_RESOLVER_TIMEOUT, name := none, a := none,
                           userdata := r.userdata }] }

/-- The arguments of one invocation of an `AvahiAddressResolverCallback`. -/
structure AddressResolverCall where
  r : AvahiAddressResolver
  interface : Int
  protocol : Int
  event : AvahiResolverEvent
  aprotocol : Int
  a : Option AvahiAddress
  name : Option String
  userdata : Nat
  deriving DecidableEq

/-- The router `avahi_address_resolver_event`. -/
def avahi_address_resolver_event (X : Ext) (client : AvahiClient) (event : AvahiResolverEvent)
    (message : DBusMessage) : Option (EventResult AddressResolverCall) :=
  let fail : EventResult AddressResolverCall :=
    { client := client, ret := .DBUS_HANDLER_RESULT_NOT_YET_HANDLED, calls := [] }
  match message.path with
  | none => some fail
  | some path =>
    match resolver_lookup path client.address_resolvers with
    | none => none
    | some none => some fail
    | some (some r) =>
      match event with
      | .AVAHI_RESOLVER_FOUND =>
        match dbus_message_get_args message.args [.int32, .int32, .int32, .string, .string] with
        | .ok [⟨.int32, interface⟩, ⟨.int32, protocol⟩, ⟨.int32, aprotocol⟩, ⟨.string, address⟩,
               ⟨.string, name⟩] =>
          match X.avahi_address_parse address aprotocol with
          | none => some fail
          | some a =>
            some { client := client, ret := .DBUS_HANDLER_RESULT_HANDLED,
                   calls := [{ r := r, interface := interface, protocol := protocol,
                               event := .AVAHI_RESOLVER_FOUND, aprotocol := aprotocol,
                               a := some a, name := some name, userdata := r.userdata }] }
        | _ => some fail
      | .AVAHI_RESOLVER_TIMEOUT =>
        some { client := client, ret := .DBUS_HANDLER_RESULT_HANDLED,
               calls := [{ r := r, interface := 0, protocol := 0,
                           event := .AVAHI_RESOLVER_TIMEOUT, aprotocol := 0, a := none,
                           name := none, userdata := r.userdata }] }

/-! ## Release -/

/-- A remote method call issued by the client: the creation request sent with
`dbus_connection_send_with_reply_and_block` to the server object
(`AVAHI_DBUS_PATH_SERVER`, `AVAHI_DBUS_INTERFACE_SERVER`), or a call made
through `avahi_client_simple_method_call` on the object `path`. -/
inductive RemoteCall where
  | server_method (method : String) (args : List DBusValue)
  | simple_method (path : String) (iface : AvahiDBusInterface) (method : String)

/-- Whether a remote call is a release call (`Free`) on a resolver object. -/
def RemoteCall.is_release : RemoteCall → Bool
  | .simple_method _ _ method => method == "Free"
  | .server_method _ _ => false

/-- Modelled from the spec: `avahi_client_set_errno` of
`avahi-client/client.c`, outside `resolver.c`, writes the session's single
"last error" slot. -/
def avahi_client_set_errno (client : AvahiClient) (error : Int) : AvahiClient :=
  { client with error := error }

/-- Modelled from the spec: `avahi_client_set_dbus_error` of
`avahi-client/client.c`, outside `resolver.c`, writes to the "last error"
slot the code that belongs to the D-Bus error. -/
def avahi_client_set_dbus_error (X : Ext) (client : AvahiClient) (error : DBusError) :
    AvahiClient :=
  avahi_client_set_errno client (X.avahi_error_dbus_number error)

/-- Modelled from the spec: the macro `AVAHI_LLIST_PREPEND` of
`avahi-common/llist.h`, outside `resolver.c`: the registry is an ordered
collection and the item becomes its head. -/
def AVAHI_LLIST_PREPEND (head : List Resolver) (item : Resolver) : List Resolver :=
  item :: head

/-- Modelled from the spec: the macro `AVAHI_LLIST_REMOVE` of
`avahi-common/llist.h`, outside `resolver.c`, "removes the operation from
the registry": the node `item` is unlinked, the other nodes keep their order.
A node is linked at most once, so the node is the first (the only) entry with
the address of `item`. -/
def AVAHI_LLIST_REMOVE (head : List Resolver) (item : Resolver) : List Resolver :=
  head.eraseP (fun x => x.addr == item.addr)

/-- What a release leaves behind: the client, the value returned and the
remote calls made. -/
structure FreeResult where
  client : AvahiClient
  ret : Int
  calls : List RemoteCall

/-- Modelled from the spec: `avahi_client_simple_method_call` of
`avahi-client/client.c`, outside `resolver.c`: a blocking remote call whose
"outcome is returned to the caller but does not change local state". -/
def avahi_client_simple_method_call (X : Ext) (client : AvahiClient) (path : String)
    (iface : AvahiDBusInterface) (method : String) : FreeResult :=
  { client := client, ret := X.simple_method_call_ret path iface method,
    calls := [.simple_method path iface method] }

/-- The release `avahi_service_resolver_free`; `client` is `r->client`. -/
def avahi_service_resolver_free (X : Ext) (client : AvahiClient) (r : AvahiServiceResolver) :
    FreeResult :=
  let call : FreeResult :=
    match r.path with
    | some path =>
      if client.state ≠ .AVAHI_CLIENT_DISCONNECTED then
        avahi_client_simple_method_call X client path .AVAHI_DBUS_INTERFACE_SERVICE_RESOLVER "Free"
      else { client := client, ret := X.AVAHI_OK, calls := [] }
    | none => { client := client, ret := X.AVAHI_OK, calls := [] }
  { client := { call.client with
                service_resolvers := AVAHI_LLIST_REMOVE call.client.service_resolvers r },
    ret := call.ret, calls := call.calls }

/-- The release `avahi_host_name_resolver_free`; `client` is `r->client`. -/
def avahi_host_name_resolver_free (X : Ext) (client : AvahiClient) (r : AvahiHostNameResolver) :
    FreeResult :=
  let call : FreeResult :=
    match r.path with
    | some path =>
      if client.state ≠ .AVAHI_CLIENT_DISCONNECTED then
        avahi_client_simple_method_call X client path
          .AVAHI_DBUS_INTERFACE_HOST_NAME_RESOLVER "Free"
      else { client := client, ret := X.AVAHI_OK, calls := [] }
    | none => { client := client, ret := X.AVAHI_OK, calls := [] }
  { client := { call.client with
                host_name_resolvers := AVAHI_LLIST_REMOVE call.client.host_name_resolvers r },
    ret := call.ret, calls := call.calls }

/-- The release `avahi_address_resolver_free`; `client` is `r->client`. -/
def avahi_address_resolver_free (X : Ext) (client : AvahiClient) (r : AvahiAddressResolver) :
    FreeResult :=
  let call : FreeResult :=
    match r.path with
    | some path =>
      if client.state ≠ .AVAHI_CLIENT_DISCONNECTED then
        avahi_client_simple_method_call X client path .AVAHI_DBUS_INTERFACE_ADDRESS_RESOLVER "Free"
      else { client := client, ret := X.AVAHI_OK, calls := [] }
    | none => { client := client, ret := X.AVAHI_OK, calls := [] }
  { client := { call.client with
                address_resolvers := AVAHI_LLIST_REMOVE call.client.address_resolvers r },
    ret := call.ret, calls := call.calls }

/-! ## Creation -/

/-- The outcome of the steps of a creation call that the environment decides:
`avahi_new` (the address of the new object, or null), whether
`dbus_message_new_method_call` and `dbus_message_append_args` succeed, what
`dbus_connection_send_with_reply_and_block` leaves (the reply, or null, and
the D-Bus error when it set one) and whether `avahi_strdup` succeeds. -/
structure NewEnv where
  avahi_new : Option Nat
  dbus_message_new_method_call : Bool
  dbus_message_append_args : Bool
  reply : Option DBusMessage
  reply_error : Option DBusError
  avahi_strdup : Bool

/-- What a creation call leaves behind: the client, the object returned (or
null) and the remote calls made, in order. -/
structure NewResult where
  client : AvahiClient
  ret : Option Resolver
  calls : List RemoteCall

/-- The write of a field through the pointer `r` (`r->path = ...`): the
registry entry that is the object `r` (the first, the only, entry with its
address) takes the contents `r`. -/
def resolver_store (r : Resolver) : List Resolver → List Resolver
  | [] => []
  | x :: rest => if x.addr = r.addr then r :: rest else x :: resolver_store r rest

/-- The `fail:` label of `avahi_service_resolver_new`: a set D-Bus error is
handed to `avahi_client_set_dbus_error`, then `if (r)` releases the object
`r` designates. -/
def avahi_service_resolver_new_fail (X : Ext) (client : AvahiClient) (error : Option DBusError)
    (r : Option AvahiServiceResolver) (calls : List RemoteCall) : NewResult :=
  let client :=
    match error with
    | some e => avahi_client_set_dbus_error X client e
    | none => client
  match r with
  | some r =>
    let f := avahi_service_resolver_free X client r
    { client := f.client, ret := none, calls := calls ++ f.calls }
  | none => { client := client, ret := none, calls := calls }

/-- The creation `avahi_service_resolver_new`.  `r_uninit` is what the local
`r`, declared without an initialiser, designates on entry (`none`: null). -/
def avahi_service_resolver_new (X : Ext) (E : NewEnv) (client : AvahiClient)
    (interface protocol : Int) (name type : String) (domain : Option String) (aprotocol : Int)
    (callback userdata : Nat) (r_uninit : Option AvahiServiceResolver) : NewResult :=
  let domain : String := domain.getD ""
  if client.state = .AVAHI_CLIENT_DISCONNECTED then
    avahi_service_resolver_new_fail X (avahi_client_set_errno client X.AVAHI_ERR_BAD_STATE)
      none r_uninit []
  else
    match E.avahi_new with
    | none =>
      avahi_service_resolver_new_fail X (avahi_client_set_errno client X.AVAHI_ERR_NO_MEMORY)
        none none []
    | some addr =>
      let r : AvahiServiceResolver :=
        { addr := addr, callback := callback, userdata := userdata, path := none }
      let client :=
        { client with service_resolvers := AVAHI_LLIST_PREPEND client.service_resolvers r }
      if ¬ E.dbus_message_new_method_call then
        avahi_service_resolver_new_fail X (avahi_client_set_errno client X.AVAHI_ERR_NO_MEMORY)
          none (some r) []
      else if ¬ E.dbus_message_append_args then
        avahi_service_resolver_new_fail X (avahi_client_set_errno client X.AVAHI_ERR_NO_MEMORY)
          none (some r) []
      else
        let calls : List RemoteCall :=
          [.server_method "ServiceResolverNew"
            [⟨.int32, interface⟩, ⟨.int32, protocol⟩, ⟨.string, name⟩, ⟨.string, type⟩,
             ⟨.string, domain⟩, ⟨.int32, aprotocol⟩]]
        match E.reply, E.reply_error with
        | some reply, none =>
          match dbus_message_get_args reply.args [.object_path] with
          | .ok [⟨.object_path, path⟩] =>
            if E.avahi_strdup then
              let r : AvahiServiceResolver := { r with path := some path }
              { client := { client with
                             service_resolvers := resolver_store r client.service_resolvers },
                ret := some r, calls := calls }
            else
              avahi_service_resolver_new_fail X
                (avahi_client_set_errno client X.AVAHI_ERR_NO_MEMORY) none (some r) calls
          | .ok _ =>
            avahi_service_resolver_new_fail X
              (avahi_client_set_errno client X.AVAHI_ERR_DBUS_ERROR) none (some r) calls
          | .error e =>
            avahi_service_resolver_new_fail X
              (avahi_client_set_errno client X.AVAHI_ERR_DBUS_ERROR) (some e) (some r) calls
        | _, error =>
          avahi_service_resolver_new_fail X
            (avahi_client_set_errno client X.AVAHI_ERR_DBUS_ERROR) error (some r) calls

/-- The `fail:` label of `avahi_host_name_resolver_new`: a set D-Bus error is
handed to `avahi_client_set_dbus_error`, then `if (r)` releases the object
`r` designates. -/
def avahi_host_name_resolver_new_fail (X : Ext) (client : AvahiClient) (error : Option DBusError)
    (r : Option AvahiHostNameResolver) (calls : List RemoteCall) : NewResult :=
  let client :=
    match error with
    | some e => avahi_client_set_dbus_error X client e
    | none => client
  match r with
  | some r =>
    let f := avahi_host_name_resolver_free X client r
    { client := f.client, ret := none, calls := calls ++ f.calls }
  | none => { client := client, ret := none, calls := calls }

/-- The creation `avahi_host_name_resolver_new`.  `r_uninit` is what the local
`r`, declared without an initialiser, designates on entry (`none`: null). -/
def avahi_host_name_resolver_new (X : Ext) (E : NewEnv) (client : AvahiClient)
    (interface protocol : Int) (name : String) (aprotocol : Int)
    (callback userdata : Nat) (r_uninit : Option AvahiHostNameResolver) : NewResult :=
  if client.state = .AVAHI_CLIENT_DISCONNECTED then
    avahi_host_name_resolver_new_fail X (avahi_client_set_errno client X.AVAHI_ERR_BAD_STATE)
      none r_uninit []
  else
    match E.avahi_new with
    | none =>
      avahi_host_name_resolver_new_fail X (avahi_client_set_errno client X.AVAHI_ERR_NO_MEMORY)
        none none []
    | some addr =>
      let r : AvahiHostNameResolver :=
        { addr := addr, callback := callback, userdata := userdata, path := none }
      let client :=
        { client with host_name_resolvers := AVAHI_LLIST_PREPEND client.host_name_resolvers r }
      if ¬ E.dbus_message_new_method_call then
        avahi_host_name_resolver_new_fail X (avahi_client_set_errno client X.AVAHI_ERR_NO_MEMORY)
          none (some r) []
      else if ¬ E.dbus_message_append_args then
        avahi_host_name_resolver_new_fail X (avahi_client_set_errno client X.AVAHI_ERR_NO_MEMORY)
          none (some r) []
      else
        let calls : List RemoteCall :=
          [.server_method "HostNameResolverNew"
            [⟨.int32, interface⟩, ⟨.int32, protocol⟩, ⟨.string, name⟩, ⟨.int32, aprotocol⟩]]
        match E.reply, E.reply_error with
        | some reply, none =>
          match dbus_message_get_args reply.args [.object_path] with
          | .ok [⟨.object_path, path⟩] =>
            if E.avahi_strdup then
              let r : AvahiHostNameResolver := { r with path := some path }
              { client := { client with
                             host_name_resolvers := resolver_store r client.host_name_resolvers },
                ret := some r, calls := calls }
            else
              avahi_host_name_resolver_new_fail X
                (avahi_client_set_errno client X.AVAHI_ERR_NO_MEMORY) none (some r) calls
          | .ok _ =>
            avahi_host_name_resolver_new_fail X
              (avahi_client_set_errno client X.AVAHI_ERR_DBUS_ERROR) none (some r) calls
          | .error e =>
            avahi_host_name_resolver_new_fail X
              (avahi_client_set_errno client X.AVAHI_ERR_DBUS_ERROR) (some e) (some r) calls
        | _, error =>
          avahi_host_name_resolver_new_fail X
            (avahi_client_set_errno client X.AVAHI_ERR_DBUS_ERROR) error (some r) calls

/-- The `fail:` label of `avahi_address_resolver_new`: a set D-Bus error is
handed to `avahi_client_set_dbus_error`, then `if (r)` releases the object
`r` designates. -/
def avahi_address_resolver_new_fail (X : Ext) (client : AvahiClient) (error : Option DBusError)
    (r : Option AvahiAddressResolver) (calls : List RemoteCall) : NewResult :=
  let client :=
    match error with
    | some e => avahi_client_set_dbus_error X client e
    | none => client
  match r with
  | some r =>
    let f := avahi_address_resolver_free X client r
    { client := f.client, ret := none, calls := calls ++ f.calls }
  | none => { client := client, ret := none, calls := calls }

/-- The creation `avahi_address_resolver_new`.  `r_uninit` is what the local
`r`, declared without an initialiser, designates on entry (`none`: null). -/
def avahi_address_resolver_new (X : Ext) (E : NewEnv) (client : AvahiClient)
    (interface protocol : Int) (address : String)
    (callback userdata : Nat) (r_uninit : Option AvahiAddressResolver) : NewResult :=
  if client.state = .AVAHI_CLIENT_DISCONNECTED then
    avahi_address_resolver_new_fail X (avahi_client_set_errno client X.AVAHI_ERR_BAD_STATE)
      none r_uninit []
  else
    match E.avahi_new with
    | none =>
      avahi_address_resolver_new_fail X (avahi_client_set_errno client X.AVAHI_ERR_NO_MEMORY)
        none none []
    | some addr =>
      let r : AvahiAddressResolver :=
        { addr := addr, callback := callback, userdata := userdata, path := none }
      let client :=
        { client with address_resolvers := AVAHI_LLIST_PREPEND client.address_resolvers r }
      if ¬ E.dbus_message_new_method_call then
        avahi_address_resolver_new_fail X (avahi_client_set_errno client X.AVAHI_ERR_NO_MEMORY)
          none (some r) []
      else if ¬ E.dbus_message_append_args then
        avahi_address_resolver_new_fail X (avahi_client_set_errno client X.AVAHI_ERR_NO_MEMORY)
          none (some r) []
      else
        let calls : List RemoteCall :=
          [.server_method "AddressResolverNew"
            [⟨.int32, interface⟩, ⟨.int32, protocol⟩, ⟨.string, address⟩]]
        match E.reply, E.reply_error with
        | some reply, none =>
          match dbus_message_get_args reply.args [.object_path] with
          | .ok [⟨.object_path, path⟩] =>
            if E.avahi_strdup then
              let r : AvahiAddressResolver := { r with path := some path }
              { client := { client with
                             address_resolvers := resolver_store r client.address_resolvers },
                ret := some r, calls := calls }
            else
              avahi_address_resolver_new_fail X
                (avahi_client_set_errno client X.AVAHI_ERR_NO_MEMORY) none (some r) calls
          | .ok _ =>
            avahi_address_resolver_new_fail X
              (avahi_client_set_errno client X.AVAHI_ERR_DBUS_ERROR) none (some r) calls
          | .error e =>
            avahi_address_resolver_new_fail X
              (avahi_client_set_errno client X.AVAHI_ERR_DBUS_ERROR) (some e) (some r) calls
        | _, error =>
          avahi_address_resolver_new_fail X
            (avahi_client_set_errno client X.AVAHI_ERR_DBUS_ERROR) error (some r) calls

/-! ## Sample data -/

/-- A sample instance of the external helpers: an address parser that knows
one dotted-quad address of family 0, a string list that puts a new record at
its head, an error mapping and error codes. -/
def sample_ext : Ext where
  avahi_address_parse := fun s p =>
    if s = "192.0.2.5" ∧ p = 0 then some ⟨0, [192, 0, 2, 5]⟩ else none
  avahi_string_list_add_arbitrary := fun l k => k :: l
  avahi_error_dbus_number := fun e => if e.name = DBUS_ERROR_INVALID_ARGS then -22 else -1
  simple_method_call_ret := fun _ _ _ => -22
  AVAHI_OK := 0
  AVAHI_ERR_BAD_STATE := -2
  AVAHI_ERR_NO_MEMORY := -24
  AVAHI_ERR_DBUS_ERROR := -22

/-- A connected session with one pending operation of each kind. -/
def sample_client : AvahiClient :=
  { state := .AVAHI_CLIENT_CONNECTED, error := 0,
    service_resolvers := [⟨1, 10, 100, some "/s/1"⟩],
    host_name_resolvers := [⟨2, 20, 200, some "/h/1"⟩],
    address_resolvers := [⟨3, 30, 300, some "/a/1"⟩] }

/-- The same session after the connection was lost. -/
def sample_disconnected : AvahiClient :=
  { sample_client with state := .AVAHI_CLIENT_DISCONNECTED }

/-- A creation call in which every step succeeds and the reply carries the
handle `/h/2`. -/
def sample_env_ok : NewEnv :=
  { avahi_new := some 7, dbus_message_new_method_call := true,
    dbus_message_append_args := true,
    reply := some ⟨none, [⟨.object_path, "/h/2"⟩]⟩, reply_error := none,
    avahi_strdup := true }

/-- A creation call whose reply omits the handle field. -/
def sample_env_no_handle : NewEnv :=
  { sample_env_ok with reply := some ⟨none, []⟩ }

/-- A connected session with three pending service resolvers, two pending
host name resolvers and two pending address resolvers. -/
def sample_busy : AvahiClient :=
  { state := .AVAHI_CLIENT_CONNECTED, error := 0,
    service_resolvers :=
      [⟨4, 40, 400, some "/s/4"⟩, ⟨5, 50, 500, some "/s/5"⟩, ⟨6, 60, 600, some "/s/6"⟩],
    host_name_resolvers := [⟨7, 70, 700, some "/h/7"⟩, ⟨8, 80, 800, some "/h/8"⟩],
    address_resolvers := [⟨9, 90, 900, some "/a/9"⟩, ⟨10, 91, 901, some "/a/10"⟩] }

/-- A well-formed service "found" notification for the handle `/s/1` with the
metadata records `records`. -/
def sample_service_found (records : List (List (Fin 256))) : DBusMessage :=
  { path := some "/s/1",
    args := [⟨.int32, (2 : Int)⟩, ⟨.int32, (0 : Int)⟩, ⟨.string, "printer"⟩,
      ⟨.string, "_ipp._tcp"⟩, ⟨.string, "local"⟩, ⟨.string, "printer.local"⟩,
      ⟨.int32, (0 : Int)⟩, ⟨.string, "192.0.2.5"⟩, ⟨.uint16, (631 : Nat)⟩,
      ⟨.array (.array .byte), records⟩] }

/-- A host name "found" notification for the handle `/h/1` that carries the
five expected arguments followed by a sixth. -/
def sample_host_name_found_six : DBusMessage :=
  { path := some "/h/1",
    args := [⟨.int32, (2 : Int)⟩, ⟨.int32, (0 : Int)⟩, ⟨.string, "printer.local"⟩,
      ⟨.int32, (0 : Int)⟩, ⟨.string, "192.0.2.5"⟩, ⟨.string, "surplus"⟩] }

/-- A host name "found" notification for the handle `/h/1` whose fifth
argument, the address text, is missing. -/
def sample_host_name_found_four : DBusMessage :=
  { path := some "/h/1",
    args := [⟨.int32, (2 : Int)⟩, ⟨.int32, (0 : Int)⟩, ⟨.string, "printer.local"⟩,
      ⟨.int32, (0 : Int)⟩] }

/-- A service "found" notification for the handle `/s/1` whose tenth argument
is `tenth`. -/
def sample_service_found_tenth (tenth : DBusValue) : DBusMessage :=
  { path := some "/s/1",
    args := [⟨.int32, (2 : Int)⟩, ⟨.int32, (0 : Int)⟩, ⟨.string, "printer"⟩,
      ⟨.string, "_ipp._tcp"⟩, ⟨.string, "local"⟩, ⟨.string, "printer.local"⟩,
      ⟨.int32, (0 : Int)⟩, ⟨.string, "192.0.2.5"⟩, ⟨.uint16, (631 : Nat)⟩, tenth] }

/-- An address "found" notification for the handle `/a/1` whose address text
is `not-an-address`. -/
def sample_address_found_bad : DBusMessage :=
  { path := some "/a/1",
    args := [⟨.int32, (2 : Int)⟩, ⟨.int32, (0 : Int)⟩, ⟨.int32, (0 : Int)⟩,
      ⟨.string, "not-an-address"⟩, ⟨.string, "printer.local"⟩] }

/-- A service "found" notification for the handle `/s/1` with two metadata
records and the address text `not-an-address`. -/
def sample_service_found_bad : DBusMessage :=
  { path := some "/s/1",
    args := [⟨.int32, (2 : Int)⟩, ⟨.int32, (0 : Int)⟩, ⟨.string, "printer"⟩,
      ⟨.string, "_ipp._tcp"⟩, ⟨.string, "local"⟩, ⟨.string, "printer.local"⟩,
      ⟨.int32, (0 : Int)⟩, ⟨.string, "not-an-address"⟩, ⟨.uint16, (631 : Nat)⟩,
      ⟨.array (.array .byte), ([[1, 2], [3]] : List (List (Fin 256)))⟩] }

/-- A connected session in which two pending host name resolvers carry the
same handle `/h/1` (the server answered two creation requests with the same
object path). -/
def sample_twins : AvahiClient :=
  { state := .AVAHI_CLIENT_CONNECTED, error := 0, service_resolvers := [],
    host_name_resolvers := [⟨2, 20, 200, some "/h/1"⟩, ⟨12, 21, 201, some "/h/1"⟩],
    address_resolvers := [] }

/-- A well-formed host name "found" notification for the handle `path`. -/
def sample_host_name_found (path : String) : DBusMessage :=
  { path := some path,
    args := [⟨.int32, (2 : Int)⟩, ⟨.int32, (0 : Int)⟩, ⟨.string, "printer.local"⟩,
      ⟨.int32, (0 : Int)⟩, ⟨.string, "192.0.2.5"⟩] }

/-- A creation call whose round trip ends with an error reported by the
remote side, here under the name `DBUS_ERROR_INVALID_ARGS`: no reply, and the
D-Bus error set. -/
def sample_env_remote_error : NewEnv :=
  { sample_env_ok with reply := none, reply_error := some ⟨DBUS_ERROR_INVALID_ARGS⟩ }

/-- A creation call in which every step succeeds and the server answers with
the handle `/h/1`, which a pending host name resolver of the sample session
carries already. -/
def sample_env_same_handle : NewEnv :=
  { sample_env_ok with reply := some ⟨none, [⟨.object_path, "/h/1"⟩]⟩ }

/-! ## Lemmas on the helpers -/

theorem get_args_nil (args : List DBusValue) : dbus_message_get_args args [] = .ok [] := by
  cases args <;> rfl

theorem get_args_object_path (h : String) (more : List DBusValue) :
    dbus_message_get_args (⟨.object_path, h⟩ :: more) [.object_path] = .ok [⟨.object_path, h⟩] := by
  simp [dbus_message_get_args, get_args_nil]

theorem llist_remove_prepend (l : List Resolver) (r : Resolver) :
    AVAHI_LLIST_REMOVE (AVAHI_LLIST_PREPEND l r) r = l := by
  simp [AVAHI_LLIST_REMOVE, AVAHI_LLIST_PREPEND]

/-- A reply whose first argument is not an object path is one of: no
argument at all, or a first argument of another type. -/
theorem get_args_object_path_cases (args : List DBusValue) :
    (∃ h more, args = ⟨.object_path, h⟩ :: more) ∨
      dbus_message_get_args args [.object_path] = .error ⟨DBUS_ERROR_INVALID_ARGS⟩ := by
  rcases args with _ | ⟨⟨t, v⟩, more⟩
  · right; rfl
  · by_cases ht : t = .object_path
    · subst ht; left; exact ⟨v, more, rfl⟩
    · right; simp [dbus_message_get_args, ht]

/-! ## Creation: C1, C2, C3 -/

/-- C1: on a session that is not disconnected, when every step of a creation
call succeeds and the reply carries the object-path handle `h`, each of
`avahi_service_resolver_new`, `avahi_host_name_resolver_new` and
`avahi_address_resolver_new` returns an operation with handle `h` and the
callback and context supplied, and leaves the session as it was except that
this one operation stands in front of the registry of its kind (the earlier
entries follow in their order, the other two registries are untouched). -/
theorem C1_creation_success (X : Ext) (E : NewEnv) (client : AvahiClient)
    (interface protocol aprotocol : Int) (name type address : String) (domain : Option String)
    (callback userdata addr : Nat) (r_uninit : Option Resolver)
    (reply : DBusMessage) (h : String) (more : List DBusValue)
    (hstate : client.state ≠ .AVAHI_CLIENT_DISCONNECTED)
    (hnew : E.avahi_new = some addr)
    (hmsg : E.dbus_message_new_method_call = true)
    (happ : E.dbus_message_append_args = true)
    (hreply : E.reply = some reply) (herr : E.reply_error = none)
    (hargs : reply.args = ⟨.object_path, h⟩ :: more)
    (hdup : E.avahi_strdup = true) :
    ((avahi_service_resolver_new X E client interface protocol name type domain aprotocol
          callback userdata r_uninit).ret = some ⟨addr, callback, userdata, some h⟩ ∧
      (avahi_service_resolver_new X E client interface protocol name type domain aprotocol
          callback userdata r_uninit).client =
        { client with
          service_resolvers := ⟨addr, callback, userdata, some h⟩ :: client.service_resolvers }) ∧
    ((avahi_host_name_resolver_new X E client interface protocol name aprotocol
          callback userdata r_uninit).ret = some ⟨addr, callback, userdata, some h⟩ ∧
      (avahi_host_name_resolver_new X E client interface protocol name aprotocol
          callback userdata r_uninit).client =
        { client with
          host_name_resolvers :=
            ⟨addr, callback, userdata, some h⟩ :: client.host_name_resolvers }) ∧
    ((avahi_address_resolver_new X E client interface protocol address
          callback userdata r_uninit).ret = some ⟨addr, callback, userdata, some h⟩ ∧
      (avahi_address_resolver_new X E client interface protocol address
          callback userdata r_uninit).client =
        { client with
          address_resolvers :=
            ⟨addr, callback, userdata, some h⟩ :: client.address_resolvers }) := by
  refine ⟨?_, ?_, ?_⟩
  · simp [avahi_service_resolver_new, hstate, hnew, hmsg, happ, hreply, herr, hargs, hdup,
      get_args_object_path, AVAHI_LLIST_PREPEND, resolver_store]
  · simp [avahi_host_name_resolver_new, hstate, hnew, hmsg, happ, hreply, herr, hargs, hdup,
      get_args_object_path, AVAHI_LLIST_PREPEND, resolver_store]
  · simp [avahi_address_resolver_new, hstate, hnew, hmsg, happ, hreply, herr, hargs, hdup,
      get_args_object_path, AVAHI_LLIST_PREPEND, resolver_store]

/-- Witness of C1: on the sample session, a host name resolver for
`printer.local` whose reply carries `/h/2` is returned with that handle and
stands in front of the earlier entry `/h/1`. -/
theorem C1_creation_success_witness :
    (avahi_host_name_resolver_new sample_ext sample_env_ok sample_client 2 0 "printer.local" 0
        11 111 none).ret = some ⟨7, 11, 111, some "/h/2"⟩ ∧
    (avahi_host_name_resolver_new sample_ext sample_env_ok sample_client 2 0 "printer.local" 0
        11 111 none).client.host_name_resolvers =
      [⟨7, 11, 111, some "/h/2"⟩, ⟨2, 20, 200, some "/h/1"⟩] :=
  have key := (C1_creation_success sample_ext sample_env_ok sample_client 2 0 0
    "printer.local" "_ipp._tcp" "192.0.2.5" none 11 111 7 none ⟨none, [⟨.object_path, "/h/2"⟩]⟩
    "/h/2" [] (by decide) rfl rfl rfl rfl rfl rfl rfl).2.1
  ⟨key.1, by rw [key.2]; rfl⟩

/-- The release that the `fail:` label of a creation call performs on the
object it has just put in front of the registry: the object has no handle,
so no remote call is made and the registry is the earlier one again. -/
theorem service_new_fail_fresh (X : Ext) (client : AvahiClient) (error : Option DBusError)
    (addr callback userdata : Nat) (code : Int) (calls : List RemoteCall) :
    avahi_service_resolver_new_fail X
        (avahi_client_set_errno
          { client with
            service_resolvers :=
              AVAHI_LLIST_PREPEND client.service_resolvers ⟨addr, callback, userdata, none⟩ }
          code)
        error (some ⟨addr, callback, userdata, none⟩) calls =
      { client := { client with
                    error := match error with
                      | some e => X.avahi_error_dbus_number e
                      | none => code },
        ret := none, calls := calls } := by
  cases error <;>
    simp [avahi_service_resolver_new_fail, avahi_service_resolver_free, avahi_client_set_errno,
      avahi_client_set_dbus_error, AVAHI_LLIST_REMOVE, AVAHI_LLIST_PREPEND]

theorem host_name_new_fail_fresh (X : Ext) (client : AvahiClient) (error : Option DBusError)
    (addr callback userdata : Nat) (code : Int) (calls : List RemoteCall) :
    avahi_host_name_resolver_new_fail X
        (avahi_client_set_errno
          { client with
            host_name_resolvers :=
              AVAHI_LLIST_PREPEND client.host_name_resolvers ⟨addr, callback, userdata, none⟩ }
          code)
        error (some ⟨addr, callback, userdata, none⟩) calls =
      { client := { client with
                    error := match error with
                      | some e => X.avahi_error_dbus_number e
                      | none => code },
        ret := none, calls := calls } := by
  cases error <;>
    simp [avahi_host_name_resolver_new_fail, avahi_host_name_resolver_free,
      avahi_client_set_errno, avahi_client_set_dbus_error, AVAHI_LLIST_REMOVE,
      AVAHI_LLIST_PREPEND]

theorem address_new_fail_fresh (X : Ext) (client : AvahiClient) (error : Option DBusError)
    (addr callback userdata : Nat) (code : Int) (calls : List RemoteCall) :
    avahi_address_resolver_new_fail X
        (avahi_client_set_errno
          { client with
            address_resolvers :=
              AVAHI_LLIST_PREPEND client.address_resolvers ⟨addr, callback, userdata, none⟩ }
          code)
        error (some ⟨addr, callback, userdata, none⟩) calls =
      { client := { client with
                    error := match error with
                      | some e => X.avahi_error_dbus_number e
                      | none => code },
        ret := none, calls := calls } := by
  cases error <;>
    simp [avahi_address_resolver_new_fail, avahi_address_resolver_free,
      avahi_client_set_errno, avahi_client_set_dbus_error, AVAHI_LLIST_REMOVE,
      AVAHI_LLIST_PREPEND]

/-- The two outcomes of `avahi_service_resolver_new` once the object is
allocated: every later step succeeded, or the call returns null, has made no
release call and leaves the session as it was but for the error slot. -/
theorem service_new_outcome (X : Ext) (E : NewEnv) (client : AvahiClient)
    (interface protocol aprotocol : Int) (name type : String) (domain : Option String)
    (callback userdata addr : Nat) (r_uninit : Option Resolver)
    (hstate : client.state ≠ .AVAHI_CLIENT_DISCONNECTED) (hnew : E.avahi_new = some addr) :
    (E.dbus_message_new_method_call = true ∧ E.dbus_message_append_args = true ∧
      E.reply_error = none ∧ E.avahi_strdup = true ∧
      ∃ reply h more, E.reply = some reply ∧ reply.args = ⟨.object_path, h⟩ :: more) ∨
    ((avahi_service_resolver_new X E client interface protocol name type domain aprotocol
        callback userdata r_uninit).ret = none ∧
      (∀ c ∈ (avahi_service_resolver_new X E client interface protocol name type domain
        aprotocol callback userdata r_uninit).calls, c.is_release = false) ∧
      ∃ code, (avahi_service_resolver_new X E client interface protocol name type domain
        aprotocol callback userdata r_uninit).client = { client with error := code }) := by
  rcases E with ⟨an, mn, ap, rp, re, sd⟩
  simp only at hnew
  subst hnew
  cases mn
  · right; simp [avahi_service_resolver_new, hstate, service_new_fail_fresh]
  cases ap
  · right; simp [avahi_service_resolver_new, hstate, service_new_fail_fresh]
  cases re
  swap
  · right
    cases rp <;>
      simp [avahi_service_resolver_new, hstate, service_new_fail_fresh, RemoteCall.is_release]
  cases rp with
  | none =>
    right
    simp [avahi_service_resolver_new, hstate, service_new_fail_fresh, RemoteCall.is_release]
  | some reply =>
    rcases get_args_object_path_cases reply.args with ⟨h, more, hargs⟩ | herr
    · cases sd
      · right
        simp [avahi_service_resolver_new, hstate, service_new_fail_fresh,
          RemoteCall.is_release, hargs, get_args_object_path]
      · left
        exact ⟨rfl, rfl, rfl, rfl, reply, h, more, rfl, hargs⟩
    · right
      simp [avahi_service_resolver_new, hstate, service_new_fail_fresh,
        RemoteCall.is_release, herr]

/-- The two outcomes of `avahi_host_name_resolver_new` once the object is
allocated: every later step succeeded, or the call returns null, has made no
release call and leaves the session as it was but for the error slot. -/
theorem host_name_new_outcome (X : Ext) (E : NewEnv) (client : AvahiClient)
    (interface protocol aprotocol : Int) (name : String)
    (callback userdata addr : Nat) (r_uninit : Option Resolver)
    (hstate : client.state ≠ .AVAHI_CLIENT_DISCONNECTED) (hnew : E.avahi_new = some addr) :
    (E.dbus_message_new_method_call = true ∧ E.dbus_message_append_args = true ∧
      E.reply_error = none ∧ E.avahi_strdup = true ∧
      ∃ reply h more, E.reply = some reply ∧ reply.args = ⟨.object_path, h⟩ :: more) ∨
    ((avahi_host_name_resolver_new X E client interface protocol name aprotocol
        callback userdata r_uninit).ret = none ∧
      (∀ c ∈ (avahi_host_name_resolver_new X E client interface protocol name
        aprotocol callback userdata r_uninit).calls, c.is_release = false) ∧
      ∃ code, (avahi_host_name_resolver_new X E client interface protocol name
        aprotocol callback userdata r_uninit).client = { client with error := code }) := by
  rcases E with ⟨an, mn, ap, rp, re, sd⟩
  simp only at hnew
  subst hnew
  cases mn
  · right; simp [avahi_host_name_resolver_new, hstate, host_name_new_fail_fresh]
  cases ap
  · right; simp [avahi_host_name_resolver_new, hstate, host_name_new_fail_fresh]
  cases re
  swap
  · right
    cases rp <;>
      simp [avahi_host_name_resolver_new, hstate, host_name_new_fail_fresh, RemoteCall.is_release]
  cases rp with
  | none =>
    right
    simp [avahi_host_name_resolver_new, hstate, host_name_new_fail_fresh, RemoteCall.is_release]
  | some reply =>
    rcases get_args_object_path_cases reply.args with ⟨h, more, hargs⟩ | herr
    · cases sd
      · right
        simp [avahi_host_name_resolver_new, hstate, host_name_new_fail_fresh,
          RemoteCall.is_release, hargs, get_args_object_path]
      · left
        exact ⟨rfl, rfl, rfl, rfl, reply, h, more, rfl, hargs⟩
    · right
      simp [avahi_host_name_resolver_new, hstate, host_name_new_fail_fresh,
        RemoteCall.is_release, herr]

/-- The two outcomes of `avahi_address_resolver_new` once the object is
allocated: every later step succeeded, or the call returns null, has made no
release call and leaves the session as it was but for the error slot. -/
theorem address_new_outcome (X : Ext) (E : NewEnv) (client : AvahiClient)
    (interface protocol : Int) (address : String)
    (callback userdata addr : Nat) (r_uninit : Option Resolver)
    (hstate : client.state ≠ .AVAHI_CLIENT_DISCONNECTED) (hnew : E.avahi_new = some addr) :
    (E.dbus_message_new_method_call = true ∧ E.dbus_message_append_args = true ∧
      E.reply_error = none ∧ E.avahi_strdup = true ∧
      ∃ reply h more, E.reply = some reply ∧ reply.args = ⟨.object_path, h⟩ :: more) ∨
    ((avahi_address_resolver_new X E client interface protocol address
        callback userdata r_uninit).ret = none ∧
      (∀ c ∈ (avahi_address_resolver_new X E client interface protocol address
        callback userdata r_uninit).calls, c.is_release = false) ∧
      ∃ code, (avahi_address_resolver_new X E client interface protocol address
        callback userdata r_uninit).client = { client with error := code }) := by
  rcases E with ⟨an, mn, ap, rp, re, sd⟩
  simp only at hnew
  subst hnew
  cases mn
  · right; simp [avahi_address_resolver_new, hstate, address_new_fail_fresh]
  cases ap
  · right; simp [avahi_address_resolver_new, hstate, address_new_fail_fresh]
  cases re
  swap
  · right
    cases rp <;>
      simp [avahi_address_resolver_new, hstate, address_new_fail_fresh, RemoteCall.is_release]
  cases rp with
  | none =>
    right
    simp [avahi_address_resolver_new, hstate, address_new_fail_fresh, RemoteCall.is_release]
  | some reply =>
    rcases get_args_object_path_cases reply.args with ⟨h, more, hargs⟩ | herr
    · cases sd
      · right
        simp [avahi_address_resolver_new, hstate, address_new_fail_fresh,
          RemoteCall.is_release, hargs, get_args_object_path]
      · left
        exact ⟨rfl, rfl, rfl, rfl, reply, h, more, rfl, hargs⟩
    · right
      simp [avahi_address_resolver_new, hstate, address_new_fail_fresh,
        RemoteCall.is_release, herr]


/-- C2: on a session that is not disconnected, when a step after the
tentative registry insertion fails (the request message cannot be built, its
arguments cannot be appended, the round trip returns no reply or sets an
error, the reply does not start with an object-path handle, or the handle
cannot be copied), each of the three creation calls returns null, makes no
remote release call, and leaves the session as it was except for the error
slot: the three registries are the registries before the call. -/
theorem C2_creation_failure (X : Ext) (E : NewEnv) (client : AvahiClient)
    (interface protocol aprotocol : Int) (name type address : String) (domain : Option String)
    (callback userdata addr : Nat) (r_uninit : Option Resolver)
    (hstate : client.state ≠ .AVAHI_CLIENT_DISCONNECTED)
    (hnew : E.avahi_new = some addr)
    (hfail : E.dbus_message_new_method_call = false ∨ E.dbus_message_append_args = false ∨
      E.reply = none ∨ E.reply_error ≠ none ∨
      (∃ reply, E.reply = some reply ∧ ∀ h more, reply.args ≠ ⟨.object_path, h⟩ :: more) ∨
      E.avahi_strdup = false) :
    ((avahi_service_resolver_new X E client interface protocol name type domain aprotocol
        callback userdata r_uninit).ret = none ∧
      (∀ c ∈ (avahi_service_resolver_new X E client interface protocol name type domain
        aprotocol callback userdata r_uninit).calls, c.is_release = false) ∧
      ∃ code, (avahi_service_resolver_new X E client interface protocol name type domain
        aprotocol callback userdata r_uninit).client = { client with error := code }) ∧
    ((avahi_host_name_resolver_new X E client interface protocol name aprotocol
        callback userdata r_uninit).ret = none ∧
      (∀ c ∈ (avahi_host_name_resolver_new X E client interface protocol name
        aprotocol callback userdata r_uninit).calls, c.is_release = false) ∧
      ∃ code, (avahi_host_name_resolver_new X E client interface protocol name
        aprotocol callback userdata r_uninit).client = { client with error := code }) ∧
    ((avahi_address_resolver_new X E client interface protocol address
        callback userdata r_uninit).ret = none ∧
      (∀ c ∈ (avahi_address_resolver_new X E client interface protocol address
        callback userdata r_uninit).calls, c.is_release = false) ∧
      ∃ code, (avahi_address_resolver_new X E client interface protocol address
        callback userdata r_uninit).client = { client with error := code }) := by
  have hno : ¬ (E.dbus_message_new_method_call = true ∧ E.dbus_message_append_args = true ∧
      E.reply_error = none ∧ E.avahi_strdup = true ∧
      ∃ reply h more, E.reply = some reply ∧ reply.args = ⟨.object_path, h⟩ :: more) := by
    rintro ⟨h1, h2, h3, h4, reply, h, more, h5, h6⟩
    rcases hfail with hf | hf | hf | hf | ⟨reply2, hf, hf2⟩ | hf
    · simp [h1] at hf
    · simp [h2] at hf
    · simp [h5] at hf
    · exact hf h3
    · rw [h5] at hf
      cases hf
      exact hf2 h more h6
    · simp [h4] at hf
  refine ⟨?_, ?_, ?_⟩
  · exact (service_new_outcome X E client interface protocol aprotocol name type domain
      callback userdata addr r_uninit hstate hnew).resolve_left hno
  · exact (host_name_new_outcome X E client interface protocol aprotocol name
      callback userdata addr r_uninit hstate hnew).resolve_left hno
  · exact (address_new_outcome X E client interface protocol address
      callback userdata addr r_uninit hstate hnew).resolve_left hno

/-- Witness of C2: the reply to a service resolver request omits the handle
field; creation fails and the three registries of the sample session are
unchanged. -/
theorem C2_creation_failure_witness :
    (avahi_service_resolver_new sample_ext sample_env_no_handle sample_client 2 0 "printer"
        "_ipp._tcp" none 0 11 111 none).ret = none ∧
    (∀ c ∈ (avahi_service_resolver_new sample_ext sample_env_no_handle sample_client 2 0
        "printer" "_ipp._tcp" none 0 11 111 none).calls, c.is_release = false) ∧
    ∃ code, (avahi_service_resolver_new sample_ext sample_env_no_handle sample_client 2 0
        "printer" "_ipp._tcp" none 0 11 111 none).client = { sample_client with error := code } :=
  (C2_creation_failure sample_ext sample_env_no_handle sample_client 2 0 0 "printer"
    "_ipp._tcp" "192.0.2.5" none 11 111 7 none (by decide) rfl
    (Or.inr (Or.inr (Or.inr (Or.inr (Or.inl
      ⟨⟨none, []⟩, rfl, fun _ _ hc => List.noConfusion hc⟩)))))).1

/-- A creation call on a disconnected session in which the local `r` happens
to be null on entry: null is returned, no remote call is made and the session
is unchanged but for the bad-state code. -/
theorem new_disconnected_r_null (X : Ext) (E : NewEnv) (client : AvahiClient)
    (interface protocol aprotocol : Int) (name type address : String) (domain : Option String)
    (callback userdata : Nat) (hstate : client.state = .AVAHI_CLIENT_DISCONNECTED) :
    ∀ res ∈ [avahi_service_resolver_new X E client interface protocol name type domain
                aprotocol callback userdata none,
              avahi_host_name_resolver_new X E client interface protocol name aprotocol
                callback userdata none,
              avahi_address_resolver_new X E client interface protocol address
                callback userdata none],
      res.ret = none ∧ res.calls = [] ∧
        res.client = { client with error := X.AVAHI_ERR_BAD_STATE } := by
  intro res hres
  simp only [List.mem_cons, List.mem_singleton, List.not_mem_nil, or_false] at hres
  rcases hres with rfl | rfl | rfl
  · simp [avahi_service_resolver_new, hstate, avahi_service_resolver_new_fail,
      avahi_client_set_errno]
  · simp [avahi_host_name_resolver_new, hstate, avahi_host_name_resolver_new_fail,
      avahi_client_set_errno]
  · simp [avahi_address_resolver_new, hstate, avahi_address_resolver_new_fail,
      avahi_client_set_errno]

/-- C3 (the code at the failing input): the sample session is disconnected and
holds one operation of each kind; the local `r` of the creation call, which
has no initialiser, designates that operation on entry.  The call sets the
bad-state error, returns null and makes no remote call, but its failure path
reads `r` and releases the operation it designates: the registry, which held
one entry, is empty afterwards. -/
theorem C3_disconnected_releases_stale_object :
    (sample_disconnected.service_resolvers = [⟨1, 10, 100, some "/s/1"⟩] ∧
      (avahi_service_resolver_new sample_ext sample_env_ok sample_disconnected 2 0 "printer"
        "_ipp._tcp" none 0 11 111 (some ⟨1, 10, 100, some "/s/1"⟩)).client.service_resolvers
        = [] ∧
      (avahi_service_resolver_new sample_ext sample_env_ok sample_disconnected 2 0 "printer"
        "_ipp._tcp" none 0 11 111 (some ⟨1, 10, 100, some "/s/1"⟩)).client.error = -2) ∧
    (sample_disconnected.host_name_resolvers = [⟨2, 20, 200, some "/h/1"⟩] ∧
      (avahi_host_name_resolver_new sample_ext sample_env_ok sample_disconnected 2 0
        "printer.local" 0 11 111 (some ⟨2, 20, 200, some "/h/1"⟩)).client.host_name_resolvers
        = [] ∧
      (avahi_host_name_resolver_new sample_ext sample_env_ok sample_disconnected 2 0
        "printer.local" 0 11 111 (some ⟨2, 20, 200, some "/h/1"⟩)).client.error = -2) ∧
    (sample_disconnected.address_resolvers = [⟨3, 30, 300, some "/a/1"⟩] ∧
      (avahi_address_resolver_new sample_ext sample_env_ok sample_disconnected 2 0
        "192.0.2.5" 11 111 (some ⟨3, 30, 300, some "/a/1"⟩)).client.address_resolvers = [] ∧
      (avahi_address_resolver_new sample_ext sample_env_ok sample_disconnected 2 0
        "192.0.2.5" 11 111 (some ⟨3, 30, 300, some "/a/1"⟩)).client.error = -2) := by
  decide

/-! ## Release: C4 -/

/-- Unlinking a node of a registry whose nodes have distinct addresses: the
registry splits around the node, and what is left is the two parts in their
order, without the node. -/
theorem llist_remove_mem (l : List Resolver) (r : Resolver) (hr : r ∈ l)
    (hnd : (l.map (fun x => x.addr)).Nodup) :
    ∃ pre post, l = pre ++ r :: post ∧ AVAHI_LLIST_REMOVE l r = pre ++ post ∧
      r ∉ pre ++ post := by
  obtain ⟨pre, post, rfl⟩ := List.append_of_mem hr
  have hpre : ∀ x ∈ pre, x.addr ≠ r.addr := by
    intro x hx hxa
    rw [List.map_append, List.map_cons] at hnd
    have hdis := (List.nodup_append.1 hnd).2.2
    exact hdis (List.mem_map.2 ⟨x, hx, rfl⟩) (by rw [hxa]; exact List.mem_cons_self _ _)
  have hpost : ∀ x ∈ post, x.addr ≠ r.addr := by
    intro x hx hxa
    rw [List.map_append, List.map_cons] at hnd
    have hcons := (List.nodup_append.1 hnd).2.1
    exact (List.nodup_cons.1 hcons).1 (by rw [← hxa]; exact List.mem_map.2 ⟨x, hx, rfl⟩)
  refine ⟨pre, post, rfl, ?_, ?_⟩
  · unfold AVAHI_LLIST_REMOVE
    rw [List.eraseP_append_right]
    · simp
    · intro x hx
      simpa using hpre x hx
  · intro hmem
    rcases List.mem_append.1 hmem with hm | hm
    · exact hpre r hm rfl
    · exact hpost r hm rfl

/-- C4: for an operation `r` of a registry (whose nodes are distinct objects),
each of `avahi_service_resolver_free`, `avahi_host_name_resolver_free` and
`avahi_address_resolver_free` takes `r` out of the registry of its kind, the
entries before and after it keeping their order, and leaves the other two
registries as they were, whatever the remote call returns.  The remote `Free`
call is made exactly when `r` has a handle and the session is not
disconnected; the value returned is then the outcome of that call, and
`AVAHI_OK` otherwise. -/
theorem C4_release (X : Ext) (client : AvahiClient) (r : Resolver) :
    ((r ∈ client.service_resolvers →
        (client.service_resolvers.map (fun x => x.addr)).Nodup →
        ∃ pre post, client.service_resolvers = pre ++ r :: post ∧
          (avahi_service_resolver_free X client r).client.service_resolvers = pre ++ post ∧
          (avahi_service_resolver_free X client r).client.host_name_resolvers =
            client.host_name_resolvers ∧
          (avahi_service_resolver_free X client r).client.address_resolvers =
            client.address_resolvers ∧
          r ∉ pre ++ post) ∧
      (∀ p, r.path = some p → client.state ≠ .AVAHI_CLIENT_DISCONNECTED →
        (avahi_service_resolver_free X client r).calls =
            [.simple_method p .AVAHI_DBUS_INTERFACE_SERVICE_RESOLVER "Free"] ∧
          (avahi_service_resolver_free X client r).ret =
            X.simple_method_call_ret p .AVAHI_DBUS_INTERFACE_SERVICE_RESOLVER "Free") ∧
      (r.path = none ∨ client.state = .AVAHI_CLIENT_DISCONNECTED →
        (avahi_service_resolver_free X client r).calls = [] ∧
          (avahi_service_resolver_free X client r).ret = X.AVAHI_OK)) ∧
    ((r ∈ client.host_name_resolvers →
        (client.host_name_resolvers.map (fun x => x.addr)).Nodup →
        ∃ pre post, client.host_name_resolvers = pre ++ r :: post ∧
          (avahi_host_name_resolver_free X client r).client.host_name_resolvers = pre ++ post ∧
          (avahi_host_name_resolver_free X client r).client.service_resolvers =
            client.service_resolvers ∧
          (avahi_host_name_resolver_free X client r).client.address_resolvers =
            client.address_resolvers ∧
          r ∉ pre ++ post) ∧
      (∀ p, r.path = some p → client.state ≠ .AVAHI_CLIENT_DISCONNECTED →
        (avahi_host_name_resolver_free X client r).calls =
            [.simple_method p .AVAHI_DBUS_INTERFACE_HOST_NAME_RESOLVER "Free"] ∧
          (avahi_host_name_resolver_free X client r).ret =
            X.simple_method_call_ret p .AVAHI_DBUS_INTERFACE_HOST_NAME_RESOLVER "Free") ∧
      (r.path = none ∨ client.state = .AVAHI_CLIENT_DISCONNECTED →
        (avahi_host_name_resolver_free X client r).calls = [] ∧
          (avahi_host_name_resolver_free X client r).ret = X.AVAHI_OK)) ∧
    ((r ∈ client.address_resolvers →
        (client.address_resolvers.map (fun x => x.addr)).Nodup →
        ∃ pre post, client.address_resolvers = pre ++ r :: post ∧
          (avahi_address_resolver_free X client r).client.address_resolvers = pre ++ post ∧
          (avahi_address_resolver_free X client r).client.service_resolvers =
            client.service_resolvers ∧
          (avahi_address_resolver_free X client r).client.host_name_resolvers =
            client.host_name_resolvers ∧
          r ∉ pre ++ post) ∧
      (∀ p, r.path = some p → client.state ≠ .AVAHI_CLIENT_DISCONNECTED →
        (avahi_address_resolver_free X client r).calls =
            [.simple_method p .AVAHI_DBUS_INTERFACE_ADDRESS_RESOLVER "Free"] ∧
          (avahi_address_resolver_free X client r).ret =
            X.simple_method_call_ret p .AVAHI_DBUS_INTERFACE_ADDRESS_RESOLVER "Free") ∧
      (r.path = none ∨ client.state = .AVAHI_CLIENT_DISCONNECTED →
        (avahi_address_resolver_free X client r).calls = [] ∧
          (avahi_address_resolver_free X client r).ret = X.AVAHI_OK)) := by
  refine ⟨⟨?_, ?_, ?_⟩, ⟨?_, ?_, ?_⟩, ⟨?_, ?_, ?_⟩⟩
  · intro hr hnd
    obtain ⟨pre, post, hsplit, hrem, hnot⟩ := llist_remove_mem _ r hr hnd
    refine ⟨pre, post, hsplit, ?_, ?_, ?_, hnot⟩
    · rw [← hrem]
      rcases hp : r.path with _ | p <;>
        by_cases hs : client.state = .AVAHI_CLIENT_DISCONNECTED <;>
        simp [avahi_service_resolver_free, avahi_client_simple_method_call, hp, hs]
    · rcases hp : r.path with _ | p <;>
        by_cases hs : client.state = .AVAHI_CLIENT_DISCONNECTED <;>
        simp [avahi_service_resolver_free, avahi_client_simple_method_call, hp, hs]
    · rcases hp : r.path with _ | p <;>
        by_cases hs : client.state = .AVAHI_CLIENT_DISCONNECTED <;>
        simp [avahi_service_resolver_free, avahi_client_simple_method_call, hp, hs]
  · intro p hp hs
    simp [avahi_service_resolver_free, avahi_client_simple_method_call, hp, hs]
  · rintro (hp | hs)
    · simp [avahi_service_resolver_free, hp]
    · rcases hp : r.path with _ | p <;> simp [avahi_service_resolver_free, hp, hs]
  · intro hr hnd
    obtain ⟨pre, post, hsplit, hrem, hnot⟩ := llist_remove_mem _ r hr hnd
    refine ⟨pre, post, hsplit, ?_, ?_, ?_, hnot⟩
    · rw [← hrem]
      rcases hp : r.path with _ | p <;>
        by_cases hs : client.state = .AVAHI_CLIENT_DISCONNECTED <;>
        simp [avahi_host_name_resolver_free, avahi_client_simple_method_call, hp, hs]
    · rcases hp : r.path with _ | p <;>
        by_cases hs : client.state = .AVAHI_CLIENT_DISCONNECTED <;>
        simp [avahi_host_name_resolver_free, avahi_client_simple_method_call, hp, hs]
    · rcases hp : r.path with _ | p <;>
        by_cases hs : client.state = .AVAHI_CLIENT_DISCONNECTED <;>
        simp [avahi_host_name_resolver_free, avahi_client_simple_method_call, hp, hs]
  · intro p hp hs
    simp [avahi_host_name_resolver_free, avahi_client_simple_method_call, hp, hs]
  · rintro (hp | hs)
    · simp [avahi_host_name_resolver_free, hp]
    · rcases hp : r.path with _ | p <;> simp [avahi_host_name_resolver_free, hp, hs]
  · intro hr hnd
    obtain ⟨pre, post, hsplit, hrem, hnot⟩ := llist_remove_mem _ r hr hnd
    refine ⟨pre, post, hsplit, ?_, ?_, ?_, hnot⟩
    · rw [← hrem]
      rcases hp : r.path with _ | p <;>
        by_cases hs : client.state = .AVAHI_CLIENT_DISCONNECTED <;>
        simp [avahi_address_resolver_free, avahi_client_simple_method_call, hp, hs]
    · rcases hp : r.path with _ | p <;>
        by_cases hs : client.state = .AVAHI_CLIENT_DISCONNECTED <;>
        simp [avahi_address_resolver_free, avahi_client_simple_method_call, hp, hs]
    · rcases hp : r.path with _ | p <;>
        by_cases hs : client.state = .AVAHI_CLIENT_DISCONNECTED <;>
        simp [avahi_address_resolver_free, avahi_client_simple_method_call, hp, hs]
  · intro p hp hs
    simp [avahi_address_resolver_free, avahi_client_simple_method_call, hp, hs]
  · rintro (hp | hs)
    · simp [avahi_address_resolver_free, hp]
    · rcases hp : r.path with _ | p <;> simp [avahi_address_resolver_free, hp, hs]

/-- Witness of C4: releasing the middle one of three pending service
resolvers, with a remote `Free` call that fails (code -22), leaves the other
two in their order; the call is made and its code is returned. -/
theorem C4_release_witness :
    (∃ pre post, sample_busy.service_resolvers = pre ++ ⟨5, 50, 500, some "/s/5"⟩ :: post ∧
      (avahi_service_resolver_free sample_ext sample_busy
        ⟨5, 50, 500, some "/s/5"⟩).client.service_resolvers = pre ++ post ∧
      (avahi_service_resolver_free sample_ext sample_busy
        ⟨5, 50, 500, some "/s/5"⟩).client.host_name_resolvers =
          sample_busy.host_name_resolvers ∧
      (avahi_service_resolver_free sample_ext sample_busy
        ⟨5, 50, 500, some "/s/5"⟩).client.address_resolvers =
          sample_busy.address_resolvers ∧
      (⟨5, 50, 500, some "/s/5"⟩ : Resolver) ∉ pre ++ post) ∧
    (avahi_service_resolver_free sample_ext sample_busy
        ⟨5, 50, 500, some "/s/5"⟩).client.service_resolvers =
      [⟨4, 40, 400, some "/s/4"⟩, ⟨6, 60, 600, some "/s/6"⟩] ∧
    (avahi_service_resolver_free sample_ext sample_busy ⟨5, 50, 500, some "/s/5"⟩).ret = -22 :=
  ⟨(C4_release sample_ext sample_busy ⟨5, 50, 500, some "/s/5"⟩).1.1 (by decide) (by decide),
    by decide,
    ((C4_release sample_ext sample_busy ⟨5, 50, 500, some "/s/5"⟩).1.2.1 "/s/5" rfl
      (by decide)).2⟩

/-! ## Event routers: C5 -/

/-- The lookup loop runs off the end of a registry in which every operation
has a handle and no handle is `path`. -/
theorem resolver_lookup_no_match (path : String) (l : List Resolver)
    (h : ∀ r ∈ l, ∃ q, r.path = some q ∧ q ≠ path) : resolver_lookup path l = some none := by
  induction l with
  | nil => rfl
  | cons x rest ih =>
    obtain ⟨q, hq, hne⟩ := h x (List.mem_cons_self _ _)
    have hrest := ih (fun r hr => h r (List.mem_cons_of_mem _ hr))
    simp [resolver_lookup, hq, hne, hrest]

/-- C5: for either event category, when the notification has no path, or
every operation of the registry of the kind has a handle and none of these
handles is the path of the notification, each of the three routers returns
"not yet handled", invokes no callback and leaves the session unchanged. -/
theorem C5_unmatched_not_handled (X : Ext) (client : AvahiClient) (event : AvahiResolverEvent)
    (message : DBusMessage) :
    ((message.path = none ∨
        (∀ r ∈ client.service_resolvers, ∃ q, r.path = some q ∧ message.path ≠ some q)) →
      avahi_service_resolver_event X client event message =
        some { client := client, ret := .DBUS_HANDLER_RESULT_NOT_YET_HANDLED, calls := [] }) ∧
    ((message.path = none ∨
        (∀ r ∈ client.host_name_resolvers, ∃ q, r.path = some q ∧ message.path ≠ some q)) →
      avahi_host_name_resolver_event X client event message =
        some { client := client, ret := .DBUS_HANDLER_RESULT_NOT_YET_HANDLED, calls := [] }) ∧
    ((message.path = none ∨
        (∀ r ∈ client.address_resolvers, ∃ q, r.path = some q ∧ message.path ≠ some q)) →
      avahi_address_resolver_event X client event message =
        some { client := client, ret := .DBUS_HANDLER_RESULT_NOT_YET_HANDLED, calls := [] }) := by
  refine ⟨?_, ?_, ?_⟩
  · intro h
    rcases hp : message.path with _ | path
    · simp [avahi_service_resolver_event, hp]
    · have hl : resolver_lookup path client.service_resolvers = some none := by
        apply resolver_lookup_no_match
        rcases h with h | h
        · simp [hp] at h
        · intro r hr
          obtain ⟨q, hq, hne⟩ := h r hr
          exact ⟨q, hq, fun hqp => hne (by rw [hp, hqp])⟩
      simp [avahi_service_resolver_event, hp, hl]
  · intro h
    rcases hp : message.path with _ | path
    · simp [avahi_host_name_resolver_event, hp]
    · have hl : resolver_lookup path client.host_name_resolvers = some none := by
        apply resolver_lookup_no_match
        rcases h with h | h
        · simp [hp] at h
        · intro r hr
          obtain ⟨q, hq, hne⟩ := h r hr
          exact ⟨q, hq, fun hqp => hne (by rw [hp, hqp])⟩
      simp [avahi_host_name_resolver_event, hp, hl]
  · intro h
    rcases hp : message.path with _ | path
    · simp [avahi_address_resolver_event, hp]
    · have hl : resolver_lookup path client.address_resolvers = some none := by
        apply resolver_lookup_no_match
        rcases h with h | h
        · simp [hp] at h
        · intro r hr
          obtain ⟨q, hq, hne⟩ := h r hr
          exact ⟨q, hq, fun hqp => hne (by rw [hp, hqp])⟩
      simp [avahi_address_resolver_event, hp, hl]

/-- Witness of C5: a timeout notification for `/h/9`, a handle no pending
host name resolver of the sample session has, and a found notification
without a path are both left unhandled. -/
theorem C5_unmatched_not_handled_witness :
    avahi_host_name_resolver_event sample_ext sample_busy .AVAHI_RESOLVER_TIMEOUT
        ⟨some "/h/9", []⟩ =
      some { client := sample_busy, ret := .DBUS_HANDLER_RESULT_NOT_YET_HANDLED, calls := [] } ∧
    avahi_service_resolver_event sample_ext sample_busy .AVAHI_RESOLVER_FOUND ⟨none, []⟩ =
      some { client := sample_busy, ret := .DBUS_HANDLER_RESULT_NOT_YET_HANDLED, calls := [] } :=
  ⟨(C5_unmatched_not_handled sample_ext sample_busy .AVAHI_RESOLVER_TIMEOUT
      ⟨some "/h/9", []⟩).2.1 (Or.inr (by decide)),
    (C5_unmatched_not_handled sample_ext sample_busy .AVAHI_RESOLVER_FOUND
      ⟨none, []⟩).1 (Or.inl rfl)⟩

/-! ## Metadata of a service: C6 -/

/-- The metadata loop over byte-array records: the records of length zero are
stepped over, the others are added in the order of the event. -/
theorem service_resolver_read_txt_bytes (X : Ext) (records : List (List (Fin 256)))
    (strlst : AvahiStringList) :
    service_resolver_read_txt X .byte records strlst =
      some ((records.filter (fun k => decide (0 < k.length))).foldl
        X.avahi_string_list_add_arbitrary strlst) := by
  induction records generalizing strlst with
  | nil => rfl
  | cons k rest ih =>
    by_cases hk : 0 < k.length
    · simp [service_resolver_read_txt, DBusType.fixed_bytes, ih, hk]
    · simp [service_resolver_read_txt, DBusType.fixed_bytes, ih, hk]

/-- C6 (counterexample): a well-formed service "found" notification for the
registered handle `/s/1` carries one metadata record, of length zero; the
callback is invoked once and the metadata list it is given is empty. -/
theorem C6_zero_length_record_dropped :
    ([[]] : List (List (Fin 256))).length = 1 ∧
    (avahi_service_resolver_event sample_ext sample_client .AVAHI_RESOLVER_FOUND
        (sample_service_found [[]])).map (fun res => res.calls.map (fun c => c.txt)) =
      some [[]] := by
  decide

/-- C6 (amended): for a well-formed service "found" notification addressed to
a registered service resolver, with an address that parses and `N` metadata
records, `avahi_service_resolver_event` invokes the callback once and the
metadata it passes is the string list obtained from the empty list by one
call of `avahi_string_list_add_arbitrary` for each record of length greater
than zero, in the order of the event and with exactly the bytes of the
record; the records of length zero are stepped over. -/
theorem C6_metadata_nonempty_records (X : Ext) (client : AvahiClient) (message : DBusMessage)
    (path : String) (r : Resolver) (interface protocol aprotocol : Int)
    (name type domain host address : String) (port : Nat) (records : List (List (Fin 256)))
    (a : AvahiAddress)
    (hpath : message.path = some path)
    (hlookup : resolver_lookup path client.service_resolvers = some (some r))
    (hargs : message.args =
      [⟨.int32, interface⟩, ⟨.int32, protocol⟩, ⟨.string, name⟩, ⟨.string, type⟩,
        ⟨.string, domain⟩, ⟨.string, host⟩, ⟨.int32, aprotocol⟩, ⟨.string, address⟩,
        ⟨.uint16, port⟩, ⟨.array (.array .byte), records⟩])
    (hparse : X.avahi_address_parse address aprotocol = some a) :
    avahi_service_resolver_event X client .AVAHI_RESOLVER_FOUND message =
      some { client := client, ret := .DBUS_HANDLER_RESULT_HANDLED,
             calls := [{ r := r, interface := interface, protocol := protocol,
                         event := .AVAHI_RESOLVER_FOUND, name := some name, type := some type,
                         domain := some domain, host := some host, a := some a, port := port,
                         txt := (records.filter (fun k => decide (0 < k.length))).foldl
                           X.avahi_string_list_add_arbitrary [],
                         userdata := r.userdata }] } := by
  simp [avahi_service_resolver_event, hpath, hlookup, hargs, dbus_message_get_args,
    service_resolver_read_txt_bytes, hparse]

/-- Witness of C6 (amended): three metadata records, the second of length
zero; the sample string list puts a new record at its head, so the callback
is given the third record followed by the first. -/
theorem C6_metadata_nonempty_records_witness :
    avahi_service_resolver_event sample_ext sample_client .AVAHI_RESOLVER_FOUND
        (sample_service_found [[1, 2], [], [3]]) =
      some { client := sample_client, ret := .DBUS_HANDLER_RESULT_HANDLED,
             calls := [{ r := ⟨1, 10, 100, some "/s/1"⟩, interface := 2, protocol := 0,
                         event := .AVAHI_RESOLVER_FOUND, name := some "printer",
                         type := some "_ipp._tcp", domain := some "local",
                         host := some "printer.local", a := some ⟨0, [192, 0, 2, 5]⟩,
                         port := 631, txt := [[3], [1, 2]], userdata := 100 }] } :=
  C6_metadata_nonempty_records sample_ext sample_client (sample_service_found [[1, 2], [], [3]])
    "/s/1" ⟨1, 10, 100, some "/s/1"⟩ 2 0 0 "printer" "_ipp._tcp" "local" "printer.local"
    "192.0.2.5" 631 [[1, 2], [], [3]] ⟨0, [192, 0, 2, 5]⟩ rfl (by decide) rfl (by decide)

/-! ## Structural mismatch: C7 -/

/-- The outcome of `dbus_message_get_args`: it succeeds exactly when the
types of the leading arguments are the requested types, and then gives those
leading arguments. -/
theorem get_args_eq (args : List DBusValue) (spec : List DBusType) :
    dbus_message_get_args args spec =
      if (args.map DBusValue.ty).take spec.length = spec then .ok (args.take spec.length)
      else .error ⟨DBUS_ERROR_INVALID_ARGS⟩ := by
  induction spec generalizing args with
  | nil => simp [get_args_nil]
  | cons t ts ih =>
    rcases args with _ | ⟨a, rest⟩
    · simp [dbus_message_get_args]
    · by_cases ht : a.ty = t
      · by_cases hts : (rest.map DBusValue.ty).take ts.length = ts
        · simp [dbus_message_get_args, ht, ih, hts]
        · simp [dbus_message_get_args, ht, ih, hts]
      · simp [dbus_message_get_args, ht]

/-- The metadata loop fails on a non-empty outer array whose elements are not
byte arrays. -/
theorem service_resolver_read_txt_not_bytes (X : Ext) (t : DBusType) (sub : List (List t.val))
    (strlst : AvahiStringList) (ht : t ≠ .byte) (hsub : sub ≠ []) :
    service_resolver_read_txt X t sub strlst = none := by
  rcases sub with _ | ⟨k, rest⟩
  · exact absurd rfl hsub
  · cases t <;> simp_all [service_resolver_read_txt, DBusType.fixed_bytes]

/-- C7 (counterexample): a host name "found" notification for the registered
handle `/h/1` with six arguments, the five expected ones and one more, is
handled and the callback is invoked; and a service "found" notification for
the registered handle `/s/1` whose tenth argument is an empty array of string
arrays, not of byte arrays, is handled and the callback is invoked. -/
theorem C7_surplus_argument_dispatched :
    (sample_host_name_found_six.args.length = 6 ∧
      (avahi_host_name_resolver_event sample_ext sample_client .AVAHI_RESOLVER_FOUND
          sample_host_name_found_six).map (fun res => (res.ret, res.calls.length)) =
        some (.DBUS_HANDLER_RESULT_HANDLED, 1)) ∧
    (avahi_service_resolver_event sample_ext sample_client .AVAHI_RESOLVER_FOUND
        (sample_service_found_tenth ⟨.array (.array .string), ([] : List (List String))⟩)).map
        (fun res => (res.ret, res.calls.length)) =
      some (.DBUS_HANDLER_RESULT_HANDLED, 1) := by
  decide

/-- C7 (amended): for a "found" notification addressed to a registered
operation, each router returns "not yet handled", invokes no callback and
leaves the session unchanged when the leading arguments are not of the
expected types (service: the first nine, int32, int32, string, string,
string, string, int32, string, uint16; host name: the first five, int32,
int32, string, int32, string; address: the first five, int32, int32, int32,
string, string), be it that there are too few arguments or that one of them
has another type; the service router does so too when every tenth argument
that is an array of arrays is a non-empty array of arrays that are not byte
arrays (which includes a tenth argument that is missing or is not an array of
arrays).  Arguments after the expected ones are not examined. -/
theorem C7_structural_mismatch (X : Ext) (client : AvahiClient) (message : DBusMessage)
    (path : String) (hpath : message.path = some path) :
    (∀ r, resolver_lookup path client.service_resolvers = some (some r) →
      ((message.args.map DBusValue.ty).take 9 ≠
          [.int32, .int32, .string, .string, .string, .string, .int32, .string, .uint16] ∨
        ∀ t sub, (message.args.drop 9).head? = some ⟨.array (.array t), sub⟩ →
          t ≠ .byte ∧ sub ≠ []) →
      avahi_service_resolver_event X client .AVAHI_RESOLVER_FOUND message =
        some { client := client, ret := .DBUS_HANDLER_RESULT_NOT_YET_HANDLED, calls := [] }) ∧
    (∀ r, resolver_lookup path client.host_name_resolvers = some (some r) →
      (message.args.map DBusValue.ty).take 5 ≠ [.int32, .int32, .string, .int32, .string] →
      avahi_host_name_resolver_event X client .AVAHI_RESOLVER_FOUND message =
        some { client := client, ret := .DBUS_HANDLER_RESULT_NOT_YET_HANDLED, calls := [] }) ∧
    (∀ r, resolver_lookup path client.address_resolvers = some (some r) →
      (message.args.map DBusValue.ty).take 5 ≠ [.int32, .int32, .int32, .string, .string] →
      avahi_address_resolver_event X client .AVAHI_RESOLVER_FOUND message =
        some { client := client, ret := .DBUS_HANDLER_RESULT_NOT_YET_HANDLED, calls := [] }) := by
  refine ⟨?_, ?_, ?_⟩
  · intro r hlookup hbad
    rcases hbad with hbad | hbad
    · simp [avahi_service_resolver_event, hpath, hlookup, get_args_eq, hbad]
    · simp only [avahi_service_resolver_event, hpath, hlookup]
      split
      · split
        · rename_i t sub h10
          obtain ⟨ht, hsub⟩ := hbad t sub h10
          simp [service_resolver_read_txt_not_bytes X t sub [] ht hsub]
        · rfl
      · rfl
  · intro r hlookup hbad
    simp [avahi_host_name_resolver_event, hpath, hlookup, get_args_eq, hbad]
  · intro r hlookup hbad
    simp [avahi_address_resolver_event, hpath, hlookup, get_args_eq, hbad]

/-- Witness of C7 (amended): a host name "found" notification with four
arguments and a service "found" notification whose tenth argument is a
string are left unhandled. -/
theorem C7_structural_mismatch_witness :
    avahi_host_name_resolver_event sample_ext sample_client .AVAHI_RESOLVER_FOUND
        sample_host_name_found_four =
      some { client := sample_client, ret := .DBUS_HANDLER_RESULT_NOT_YET_HANDLED,
             calls := [] } ∧
    avahi_service_resolver_event sample_ext sample_client .AVAHI_RESOLVER_FOUND
        (sample_service_found_tenth ⟨.string, "txt"⟩) =
      some { client := sample_client, ret := .DBUS_HANDLER_RESULT_NOT_YET_HANDLED,
             calls := [] } :=
  ⟨(C7_structural_mismatch sample_ext sample_client sample_host_name_found_four "/h/1"
      rfl).2.1 ⟨2, 20, 200, some "/h/1"⟩ (by decide) (by decide),
    (C7_structural_mismatch sample_ext sample_client
      (sample_service_found_tenth ⟨.string, "txt"⟩) "/s/1" rfl).1 ⟨1, 10, 100, some "/s/1"⟩
      (by decide) (Or.inr (fun t sub h10 => by
        simp [sample_service_found_tenth] at h10))⟩

/-! ## Address text that does not parse: C8 -/

/-- C8: for a well-typed "found" notification addressed to a registered
operation whose address text does not parse under the target-address family
it declares, each of the three routers returns "not yet handled", invokes no
callback and leaves the session unchanged; for the service router this holds
whatever metadata records the notification carries, which the router has
decoded by then. -/
theorem C8_unparsable_address (X : Ext) (client : AvahiClient) (message : DBusMessage)
    (path : String) (interface protocol aprotocol : Int)
    (name type domain host address : String) (port : Nat) (records : List (List (Fin 256)))
    (hpath : message.path = some path)
    (hparse : X.avahi_address_parse address aprotocol = none) :
    (∀ r, resolver_lookup path client.service_resolvers = some (some r) →
      message.args =
        [⟨.int32, interface⟩, ⟨.int32, protocol⟩, ⟨.string, name⟩, ⟨.string, type⟩,
          ⟨.string, domain⟩, ⟨.string, host⟩, ⟨.int32, aprotocol⟩, ⟨.string, address⟩,
          ⟨.uint16, port⟩, ⟨.array (.array .byte), records⟩] →
      avahi_service_resolver_event X client .AVAHI_RESOLVER_FOUND message =
        some { client := client, ret := .DBUS_HANDLER_RESULT_NOT_YET_HANDLED, calls := [] }) ∧
    (∀ r, resolver_lookup path client.host_name_resolvers = some (some r) →
      message.args =
        [⟨.int32, interface⟩, ⟨.int32, protocol⟩, ⟨.string, name⟩, ⟨.int32, aprotocol⟩,
          ⟨.string, address⟩] →
      avahi_host_name_resolver_event X client .AVAHI_RESOLVER_FOUND message =
        some { client := client, ret := .DBUS_HANDLER_RESULT_NOT_YET_HANDLED, calls := [] }) ∧
    (∀ r, resolver_lookup path client.address_resolvers = some (some r) →
      message.args =
        [⟨.int32, interface⟩, ⟨.int32, protocol⟩, ⟨.int32, aprotocol⟩, ⟨.string, address⟩,
          ⟨.string, name⟩] →
      avahi_address_resolver_event X client .AVAHI_RESOLVER_FOUND message =
        some { client := client, ret := .DBUS_HANDLER_RESULT_NOT_YET_HANDLED, calls := [] }) := by
  refine ⟨?_, ?_, ?_⟩
  · intro r hlookup hargs
    simp [avahi_service_resolver_event, hpath, hlookup, hargs, dbus_message_get_args,
      service_resolver_read_txt_bytes, hparse]
  · intro r hlookup hargs
    simp [avahi_host_name_resolver_event, hpath, hlookup, hargs, dbus_message_get_args, hparse]
  · intro r hlookup hargs
    simp [avahi_address_resolver_event, hpath, hlookup, hargs, dbus_message_get_args, hparse]

/-- Witness of C8: with the address text `not-an-address` and family 0, an
address "found" notification for `/a/1` and a service "found" notification for
`/s/1` that carries two metadata records are left unhandled. -/
theorem C8_unparsable_address_witness :
    avahi_address_resolver_event sample_ext sample_client .AVAHI_RESOLVER_FOUND
        sample_address_found_bad =
      some { client := sample_client, ret := .DBUS_HANDLER_RESULT_NOT_YET_HANDLED,
             calls := [] } ∧
    avahi_service_resolver_event sample_ext sample_client .AVAHI_RESOLVER_FOUND
        sample_service_found_bad =
      some { client := sample_client, ret := .DBUS_HANDLER_RESULT_NOT_YET_HANDLED,
             calls := [] } :=
  ⟨(C8_unparsable_address sample_ext sample_client sample_address_found_bad "/a/1" 2 0 0
      "printer.local" "" "" "" "not-an-address" 0 [] rfl (by decide)).2.2
      ⟨3, 30, 300, some "/a/1"⟩ (by decide) rfl,
    (C8_unparsable_address sample_ext sample_client sample_service_found_bad "/s/1" 2 0 0
      "printer" "_ipp._tcp" "local" "printer.local" "not-an-address" 631 [[1, 2], [3]] rfl
      (by decide)).1 ⟨1, 10, 100, some "/s/1"⟩ (by decide) rfl⟩

/-! ## Dispatch of the host name router: C9 -/

/-- The lookup loop stops at the first operation whose handle is `h`, when
the operations before it have other handles. -/
theorem resolver_lookup_first (h : String) (pre post : List Resolver) (r : Resolver)
    (hpre : ∀ x ∈ pre, ∃ q, x.path = some q ∧ q ≠ h) (hr : r.path = some h) :
    resolver_lookup h (pre ++ r :: post) = some (some r) := by
  induction pre with
  | nil => simp [resolver_lookup, hr]
  | cons x rest ih =>
    obtain ⟨q, hq, hne⟩ := hpre x (List.mem_cons_self _ _)
    have hrest := ih (fun y hy => hpre y (List.mem_cons_of_mem _ hy))
    simp [resolver_lookup, hq, hne, hrest]

/-- C9 (counterexample): two pending host name resolvers carry the handle
`/h/1`; a timeout notification for `/h/1` invokes the callback of the first
one only, so the second, an operation of the registry with handle `/h/1`,
does not have its callback invoked. -/
theorem C9_second_of_equal_handles_not_invoked :
    (⟨12, 21, 201, some "/h/1"⟩ : Resolver) ∈ sample_twins.host_name_resolvers ∧
    (avahi_host_name_resolver_event sample_ext sample_twins .AVAHI_RESOLVER_TIMEOUT
        ⟨some "/h/1", []⟩).map (fun res => res.calls.map (fun c => c.r)) =
      some [⟨2, 20, 200, some "/h/1"⟩] := by
  decide

/-- C9 (amended): let `r` be the first operation in registry order whose
handle is `h` (the operations before it have other handles).  (1) For a
"found" notification addressed to `h` whose arguments are an interface, a
protocol, a name, a target family and an address text that parses under that
family to `a`, `avahi_host_name_resolver_event` returns "handled" and makes
one callback invocation, that of `r`, with the found indication, that
interface, protocol and name, the address `a` and the context of `r`.  (2)
For a timeout notification addressed to `h`, whatever its arguments, it
returns "handled" and makes one callback invocation, that of `r`, with the
timeout indication, interface 0, protocol 0, no name, no address and the
context of `r`.  In both cases the session is left unchanged. -/
theorem C9_host_name_dispatch (X : Ext) (client : AvahiClient) (message : DBusMessage)
    (h : String) (pre post : List Resolver) (r : Resolver)
    (hreg : client.host_name_resolvers = pre ++ r :: post)
    (hpre : ∀ x ∈ pre, ∃ q, x.path = some q ∧ q ≠ h)
    (hr : r.path = some h)
    (hpath : message.path = some h) :
    (∀ (interface protocol aprotocol : Int) (name address : String) (a : AvahiAddress),
      message.args =
        [⟨.int32, interface⟩, ⟨.int32, protocol⟩, ⟨.string, name⟩, ⟨.int32, aprotocol⟩,
          ⟨.string, address⟩] →
      X.avahi_address_parse address aprotocol = some a →
      avahi_host_name_resolver_event X client .AVAHI_RESOLVER_FOUND message =
        some { client := client, ret := .DBUS_HANDLER_RESULT_HANDLED,
               calls := [{ r := r, interface := interface, protocol := protocol,
                           event := .AVAHI_RESOLVER_FOUND, name := some name, a := some a,
                           userdata := r.userdata }] }) ∧
    avahi_host_name_resolver_event X client .AVAHI_RESOLVER_TIMEOUT message =
      some { client := client, ret := .DBUS_HANDLER_RESULT_HANDLED,
             calls := [{ r := r, interface := 0, protocol := 0,
                         event := .AVAHI_RESOLVER_TIMEOUT, name := none, a := none,
                         userdata := r.userdata }] } := by
  have hlookup : resolver_lookup h client.host_name_resolvers = some (some r) := by
    rw [hreg]
    exact resolver_lookup_first h pre post r hpre hr
  refine ⟨?_, ?_⟩
  · intro interface protocol aprotocol name address a hargs hparse
    simp [avahi_host_name_resolver_event, hpath, hlookup, hargs, dbus_message_get_args, hparse]
  · simp [avahi_host_name_resolver_event, hpath, hlookup]

/-- Witness of C9 (amended): the second of the two pending host name resolvers
of the sample session, `/h/8`, receives a "found" notification with the
address text `192.0.2.5` of family 0, then a timeout notification. -/
theorem C9_host_name_dispatch_witness :
    avahi_host_name_resolver_event sample_ext sample_busy .AVAHI_RESOLVER_FOUND
        (sample_host_name_found "/h/8") =
      some { client := sample_busy, ret := .DBUS_HANDLER_RESULT_HANDLED,
             calls := [{ r := ⟨8, 80, 800, some "/h/8"⟩, interface := 2, protocol := 0,
                         event := .AVAHI_RESOLVER_FOUND, name := some "printer.local",
                         a := some ⟨0, [192, 0, 2, 5]⟩, userdata := 800 }] } ∧
    avahi_host_name_resolver_event sample_ext sample_busy .AVAHI_RESOLVER_TIMEOUT
        (sample_host_name_found "/h/8") =
      some { client := sample_busy, ret := .DBUS_HANDLER_RESULT_HANDLED,
             calls := [{ r := ⟨8, 80, 800, some "/h/8"⟩, interface := 0, protocol := 0,
                         event := .AVAHI_RESOLVER_TIMEOUT, name := none, a := none,
                         userdata := 800 }] } :=
  have key := C9_host_name_dispatch sample_ext sample_busy (sample_host_name_found "/h/8")
    "/h/8" [⟨7, 70, 700, some "/h/7"⟩] [] ⟨8, 80, 800, some "/h/8"⟩ rfl
    (fun x hx => ⟨"/h/7", by rw [List.mem_singleton.1 hx], by decide⟩) rfl rfl
  ⟨key.1 2 0 0 "printer.local" "192.0.2.5" ⟨0, [192, 0, 2, 5]⟩ rfl (by decide), key.2⟩

/-! ## Error codes of creation: C10 -/

/-- The error code `avahi_service_resolver_new` leaves in each failure
condition: bad state for a disconnected session, no memory for each failed
allocation, and for a failed round trip and for a reply without a leading
object path the code of the D-Bus error that is set (the code
`AVAHI_ERR_DBUS_ERROR` when none is set). -/
theorem service_new_error (X : Ext) (E : NewEnv) (client : AvahiClient)
    (interface protocol aprotocol : Int) (name type : String) (domain : Option String)
    (callback userdata : Nat) (r_uninit : Option Resolver) :
    (client.state = .AVAHI_CLIENT_DISCONNECTED →
      (avahi_service_resolver_new X E client interface protocol name type domain aprotocol
        callback userdata r_uninit).client.error = X.AVAHI_ERR_BAD_STATE) ∧
    (client.state ≠ .AVAHI_CLIENT_DISCONNECTED →
      (E.avahi_new = none ∨ E.dbus_message_new_method_call = false ∨
        (E.dbus_message_new_method_call = true ∧ E.dbus_message_append_args = false) ∨
        (E.dbus_message_new_method_call = true ∧ E.dbus_message_append_args = true ∧
          E.reply_error = none ∧ E.avahi_strdup = false ∧
          ∃ reply h more, E.reply = some reply ∧ reply.args = ⟨.object_path, h⟩ :: more)) →
      (avahi_service_resolver_new X E client interface protocol name type domain aprotocol
        callback userdata r_uninit).client.error = X.AVAHI_ERR_NO_MEMORY) ∧
    (client.state ≠ .AVAHI_CLIENT_DISCONNECTED → E.avahi_new ≠ none →
      E.dbus_message_new_method_call = true → E.dbus_message_append_args = true →
      (E.reply = none ∨ E.reply_error ≠ none) →
      (avahi_service_resolver_new X E client interface protocol name type domain aprotocol
        callback userdata r_uninit).client.error =
        match E.reply_error with
        | some e => X.avahi_error_dbus_number e
        | none => X.AVAHI_ERR_DBUS_ERROR) ∧
    (client.state ≠ .AVAHI_CLIENT_DISCONNECTED → E.avahi_new ≠ none →
      E.dbus_message_new_method_call = true → E.dbus_message_append_args = true →
      E.reply_error = none →
      (∃ reply, E.reply = some reply ∧ ∀ h more, reply.args ≠ ⟨.object_path, h⟩ :: more) →
      (avahi_service_resolver_new X E client interface protocol name type domain aprotocol
        callback userdata r_uninit).client.error =
        X.avahi_error_dbus_number ⟨DBUS_ERROR_INVALID_ARGS⟩) := by
  rcases E with ⟨an, mn, ap, rp, re, sd⟩
  refine ⟨?_, ?_, ?_, ?_⟩
  · intro hstate
    rcases r_uninit with _ | r
    · simp [avahi_service_resolver_new, hstate, avahi_service_resolver_new_fail,
        avahi_client_set_errno]
    · rcases hp : r.path with _ | p <;>
        simp [avahi_service_resolver_new, hstate, avahi_service_resolver_new_fail,
          avahi_service_resolver_free, avahi_client_set_errno, hp]
  · intro hstate hfail
    rcases an with _ | addr
    · simp [avahi_service_resolver_new, hstate, avahi_service_resolver_new_fail,
        avahi_client_set_errno]
    · rcases hfail with hf | hf | ⟨hm, hf⟩ | ⟨hm, ha, he, hs, reply, h, more, hr, hargs⟩
      · simp at hf
      · simp only at hf
        subst hf
        simp [avahi_service_resolver_new, hstate, service_new_fail_fresh]
      · simp only at hm hf
        subst hm hf
        simp [avahi_service_resolver_new, hstate, service_new_fail_fresh]
      · simp only at hm ha he hs hr
        subst hm ha he hs hr
        simp [avahi_service_resolver_new, hstate, service_new_fail_fresh, hargs,
          get_args_object_path]
  · intro hstate han hm ha hfail
    rcases an with _ | addr
    · simp at han
    · simp only at hm ha hfail
      subst hm ha
      rcases re with _ | e
      · rcases hfail with hf | hf
        · subst hf
          simp [avahi_service_resolver_new, hstate, service_new_fail_fresh]
        · simp at hf
      · cases rp <;> simp [avahi_service_resolver_new, hstate, service_new_fail_fresh]
  · rintro hstate han hm ha he ⟨reply, hr, hargs⟩
    rcases an with _ | addr
    · simp at han
    · simp only at hm ha he hr
      subst hm ha he hr
      rcases get_args_object_path_cases reply.args with ⟨h, more, hok⟩ | herr
      · exact absurd hok (hargs h more)
      · simp [avahi_service_resolver_new, hstate, service_new_fail_fresh, herr]

/-- The error code `avahi_host_name_resolver_new` leaves in each failure
condition: bad state for a disconnected session, no memory for each failed
allocation, and for a failed round trip and for a reply without a leading
object path the code of the D-Bus error that is set (the code
`AVAHI_ERR_DBUS_ERROR` when none is set). -/
theorem host_name_new_error (X : Ext) (E : NewEnv) (client : AvahiClient)
    (interface protocol aprotocol : Int) (name : String)
    (callback userdata : Nat) (r_uninit : Option Resolver) :
    (client.state = .AVAHI_CLIENT_DISCONNECTED →
      (avahi_host_name_resolver_new X E client interface protocol name aprotocol
        callback userdata r_uninit).client.error = X.AVAHI_ERR_BAD_STATE) ∧
    (client.state ≠ .AVAHI_CLIENT_DISCONNECTED →
      (E.avahi_new = none ∨ E.dbus_message_new_method_call = false ∨
        (E.dbus_message_new_method_call = true ∧ E.dbus_message_append_args = false) ∨
        (E.dbus_message_new_method_call = true ∧ E.dbus_message_append_args = true ∧
          E.reply_error = none ∧ E.avahi_strdup = false ∧
          ∃ reply h more, E.reply = some reply ∧ reply.args = ⟨.object_path, h⟩ :: more)) →
      (avahi_host_name_resolver_new X E client interface protocol name aprotocol
        callback userdata r_uninit).client.error = X.AVAHI_ERR_NO_MEMORY) ∧
    (client.state ≠ .AVAHI_CLIENT_DISCONNECTED → E.avahi_new ≠ none →
      E.dbus_message_new_method_call = true → E.dbus_message_append_args = true →
      (E.reply = none ∨ E.reply_error ≠ none) →
      (avahi_host_name_resolver_new X E client interface protocol name aprotocol
        callback userdata r_uninit).client.error =
        match E.reply_error with
        | some e => X.avahi_error_dbus_number e
        | none => X.AVAHI_ERR_DBUS_ERROR) ∧
    (client.state ≠ .AVAHI_CLIENT_DISCONNECTED → E.avahi_new ≠ none →
      E.dbus_message_new_method_call = true → E.dbus_message_append_args = true →
      E.reply_error = none →
      (∃ reply, E.reply = some reply ∧ ∀ h more, reply.args ≠ ⟨.object_path, h⟩ :: more) →
      (avahi_host_name_resolver_new X E client interface protocol name aprotocol
        callback userdata r_uninit).client.error =
        X.avahi_error_dbus_number ⟨DBUS_ERROR_INVALID_ARGS⟩) := by
  rcases E with ⟨an, mn, ap, rp, re, sd⟩
  refine ⟨?_, ?_, ?_, ?_⟩
  · intro hstate
    rcases r_uninit with _ | r
    · simp [avahi_host_name_resolver_new, hstate, avahi_host_name_resolver_new_fail,
        avahi_client_set_errno]
    · rcases hp : r.path with _ | p <;>
        simp [avahi_host_name_resolver_new, hstate, avahi_host_name_resolver_new_fail,
          avahi_host_name_resolver_free, avahi_client_set_errno, hp]
  · intro hstate hfail
    rcases an with _ | addr
    · simp [avahi_host_name_resolver_new, hstate, avahi_host_name_resolver_new_fail,
        avahi_client_set_errno]
    · rcases hfail with hf | hf | ⟨hm, hf⟩ | ⟨hm, ha, he, hs, reply, h, more, hr, hargs⟩
      · simp at hf
      · simp only at hf
        subst hf
        simp [avahi_host_name_resolver_new, hstate, host_name_new_fail_fresh]
      · simp only at hm hf
        subst hm hf
        simp [avahi_host_name_resolver_new, hstate, host_name_new_fail_fresh]
      · simp only at hm ha he hs hr
        subst hm ha he hs hr
        simp [avahi_host_name_resolver_new, hstate, host_name_new_fail_fresh, hargs,
          get_args_object_path]
  · intro hstate han hm ha hfail
    rcases an with _ | addr
    · simp at han
    · simp only at hm ha hfail
      subst hm ha
      rcases re with _ | e
      · rcases hfail with hf | hf
        · subst hf
          simp [avahi_host_name_resolver_new, hstate, host_name_new_fail_fresh]
        · simp at hf
      · cases rp <;> simp [avahi_host_name_resolver_new, hstate, host_name_new_fail_fresh]
  · rintro hstate han hm ha he ⟨reply, hr, hargs⟩
    rcases an with _ | addr
    · simp at han
    · simp only at hm ha he hr
      subst hm ha he hr
      rcases get_args_object_path_cases reply.args with ⟨h, more, hok⟩ | herr
      · exact absurd hok (hargs h more)
      · simp [avahi_host_name_resolver_new, hstate, host_name_new_fail_fresh, herr]

/-- The error code `avahi_address_resolver_new` leaves in each failure
condition: bad state for a disconnected session, no memory for each failed
allocation, and for a failed round trip and for a reply without a leading
object path the code of the D-Bus error that is set (the code
`AVAHI_ERR_DBUS_ERROR` when none is set). -/
theorem address_new_error (X : Ext) (E : NewEnv) (client : AvahiClient)
    (interface protocol : Int) (address : String)
    (callback userdata : Nat) (r_uninit : Option Resolver) :
    (client.state = .AVAHI_CLIENT_DISCONNECTED →
      (avahi_address_resolver_new X E client interface protocol address
        callback userdata r_uninit).client.error = X.AVAHI_ERR_BAD_STATE) ∧
    (client.state ≠ .AVAHI_CLIENT_DISCONNECTED →
      (E.avahi_new = none ∨ E.dbus_message_new_method_call = false ∨
        (E.dbus_message_new_method_call = true ∧ E.dbus_message_append_args = false) ∨
        (E.dbus_message_new_method_call = true ∧ E.dbus_message_append_args = true ∧
          E.reply_error = none ∧ E.avahi_strdup = false ∧
          ∃ reply h more, E.reply = some reply ∧ reply.args = ⟨.object_path, h⟩ :: more)) →
      (avahi_address_resolver_new X E client interface protocol address
        callback userdata r_uninit).client.error = X.AVAHI_ERR_NO_MEMORY) ∧
    (client.state ≠ .AVAHI_CLIENT_DISCONNECTED → E.avahi_new ≠ none →
      E.dbus_message_new_method_call = true → E.dbus_message_append_args = true →
      (E.reply = none ∨ E.reply_error ≠ none) →
      (avahi_address_resolver_new X E client interface protocol address
        callback userdata r_uninit).client.error =
        match E.reply_error with
        | some e => X.avahi_error_dbus_number e
        | none => X.AVAHI_ERR_DBUS_ERROR) ∧
    (client.state ≠ .AVAHI_CLIENT_DISCONNECTED → E.avahi_new ≠ none →
      E.dbus_message_new_method_call = true → E.dbus_message_append_args = true →
      E.reply_error = none →
      (∃ reply, E.reply = some reply ∧ ∀ h more, reply.args ≠ ⟨.object_path, h⟩ :: more) →
      (avahi_address_resolver_new X E client interface protocol address
        callback userdata r_uninit).client.error =
        X.avahi_error_dbus_number ⟨DBUS_ERROR_INVALID_ARGS⟩) := by
  rcases E with ⟨an, mn, ap, rp, re, sd⟩
  refine ⟨?_, ?_, ?_, ?_⟩
  · intro hstate
    rcases r_uninit with _ | r
    · simp [avahi_address_resolver_new, hstate, avahi_address_resolver_new_fail,
        avahi_client_set_errno]
    · rcases hp : r.path with _ | p <;>
        simp [avahi_address_resolver_new, hstate, avahi_address_resolver_new_fail,
          avahi_address_resolver_free, avahi_client_set_errno, hp]
  · intro hstate hfail
    rcases an with _ | addr
    · simp [avahi_address_resolver_new, hstate, avahi_address_resolver_new_fail,
        avahi_client_set_errno]
    · rcases hfail with hf | hf | ⟨hm, hf⟩ | ⟨hm, ha, he, hs, reply, h, more, hr, hargs⟩
      · simp at hf
      · simp only at hf
        subst hf
        simp [avahi_address_resolver_new, hstate, address_new_fail_fresh]
      · simp only at hm hf
        subst hm hf
        simp [avahi_address_resolver_new, hstate, address_new_fail_fresh]
      · simp only at hm ha he hs hr
        subst hm ha he hs hr
        simp [avahi_address_resolver_new, hstate, address_new_fail_fresh, hargs,
          get_args_object_path]
  · intro hstate han hm ha hfail
    rcases an with _ | addr
    · simp at han
    · simp only at hm ha hfail
      subst hm ha
      rcases re with _ | e
      · rcases hfail with hf | hf
        · subst hf
          simp [avahi_address_resolver_new, hstate, address_new_fail_fresh]
        · simp at hf
      · cases rp <;> simp [avahi_address_resolver_new, hstate, address_new_fail_fresh]
  · rintro hstate han hm ha he ⟨reply, hr, hargs⟩
    rcases an with _ | addr
    · simp at han
    · simp only at hm ha he hr
      subst hm ha he hr
      rcases get_args_object_path_cases reply.args with ⟨h, more, hok⟩ | herr
      · exact absurd hok (hargs h more)
      · simp [avahi_address_resolver_new, hstate, address_new_fail_fresh, herr]

/-- C10 (counterexample): on the sample session, a service resolver request
whose round trip ends with an error reported by the remote side and a service
resolver request whose reply omits the handle leave the same error code; so do
the two address resolver requests. -/
theorem C10_round_trip_and_handle_same_code :
    (avahi_service_resolver_new sample_ext sample_env_remote_error sample_client 2 0 "printer"
        "_ipp._tcp" none 0 11 111 none).client.error =
      (avahi_service_resolver_new sample_ext sample_env_no_handle sample_client 2 0 "printer"
        "_ipp._tcp" none 0 11 111 none).client.error ∧
    (avahi_address_resolver_new sample_ext sample_env_remote_error sample_client 2 0
        "192.0.2.5" 11 111 none).client.error =
      (avahi_address_resolver_new sample_ext sample_env_no_handle sample_client 2 0
        "192.0.2.5" 11 111 none).client.error := by
  decide

/-- C10 (amended): after each of the three creation calls the error slot of
the session holds `AVAHI_ERR_BAD_STATE` when the session is disconnected, and
on a session that is not disconnected `AVAHI_ERR_NO_MEMORY` when an
allocation fails (the object, the request message, its arguments, or the copy
of the handle).  A failed round trip and a reply that does not start with an
object-path handle are not given codes of their own: both set
`AVAHI_ERR_DBUS_ERROR` and both end with the code that
`avahi_client_set_dbus_error` stores for the D-Bus error that is set, which
for the reply is the error `dbus_message_get_args` sets. -/
theorem C10_error_codes (X : Ext) (E : NewEnv) (client : AvahiClient)
    (interface protocol aprotocol : Int) (name type address : String) (domain : Option String)
    (callback userdata : Nat) (r_uninit : Option Resolver) :
    ∀ res ∈ [avahi_service_resolver_new X E client interface protocol name type domain
                aprotocol callback userdata r_uninit,
              avahi_host_name_resolver_new X E client interface protocol name aprotocol
                callback userdata r_uninit,
              avahi_address_resolver_new X E client interface protocol address
                callback userdata r_uninit],
      (client.state = .AVAHI_CLIENT_DISCONNECTED →
        res.client.error = X.AVAHI_ERR_BAD_STATE) ∧
      (client.state ≠ .AVAHI_CLIENT_DISCONNECTED →
        (E.avahi_new = none ∨ E.dbus_message_new_method_call = false ∨
          (E.dbus_message_new_method_call = true ∧ E.dbus_message_append_args = false) ∨
          (E.dbus_message_new_method_call = true ∧ E.dbus_message_append_args = true ∧
            E.reply_error = none ∧ E.avahi_strdup = false ∧
            ∃ reply h more, E.reply = some reply ∧ reply.args = ⟨.object_path, h⟩ :: more)) →
        res.client.error = X.AVAHI_ERR_NO_MEMORY) ∧
      (client.state ≠ .AVAHI_CLIENT_DISCONNECTED → E.avahi_new ≠ none →
        E.dbus_message_new_method_call = true → E.dbus_message_append_args = true →
        (E.reply = none ∨ E.reply_error ≠ none) →
        res.client.error =
          match E.reply_error with
          | some e => X.avahi_error_dbus_number e
          | none => X.AVAHI_ERR_DBUS_ERROR) ∧
      (client.state ≠ .AVAHI_CLIENT_DISCONNECTED → E.avahi_new ≠ none →
        E.dbus_message_new_method_call = true → E.dbus_message_append_args = true →
        E.reply_error = none →
        (∃ reply, E.reply = some reply ∧ ∀ h more, reply.args ≠ ⟨.object_path, h⟩ :: more) →
        res.client.error = X.avahi_error_dbus_number ⟨DBUS_ERROR_INVALID_ARGS⟩) := by
  intro res hres
  simp only [List.mem_cons, List.mem_singleton, List.not_mem_nil, or_false] at hres
  rcases hres with rfl | rfl | rfl
  · exact service_new_error X E client interface protocol aprotocol name type domain
      callback userdata r_uninit
  · exact host_name_new_error X E client interface protocol aprotocol name
      callback userdata r_uninit
  · exact address_new_error X E client interface protocol address callback userdata r_uninit

/-- Witness of C10 (amended): on the sample session a host name resolver
request leaves the bad-state code -2 when the session is disconnected, and,
the session being connected, the code the sample error mapping gives the
error of `dbus_message_get_args`, -22, when the reply omits the handle. -/
theorem C10_error_codes_witness :
    (avahi_host_name_resolver_new sample_ext sample_env_ok sample_disconnected 2 0
        "printer.local" 0 11 111 none).client.error = -2 ∧
    (avahi_host_name_resolver_new sample_ext sample_env_no_handle sample_client 2 0
        "printer.local" 0 11 111 none).client.error = -22 :=
  ⟨(C10_error_codes sample_ext sample_env_ok sample_disconnected 2 0 0 "printer.local"
      "_ipp._tcp" "192.0.2.5" none 11 111 none _
      (List.mem_cons_of_mem _ (List.mem_cons_self _ _))).1 (by decide),
    (C10_error_codes sample_ext sample_env_no_handle sample_client 2 0 0 "printer.local"
      "_ipp._tcp" "192.0.2.5" none 11 111 none _
      (List.mem_cons_of_mem _ (List.mem_cons_self _ _))).2.2.2 (by decide) (by decide) rfl rfl rfl
      ⟨⟨none, []⟩, rfl, fun _ _ hc => List.noConfusion hc⟩⟩

/-! ## First match in registry order: C11 -/

/-- In a registry whose operations all have a handle the lookup loop ends at
the first operation, in registry order, whose handle is `h`, or runs off the
end when there is none. -/
theorem resolver_lookup_eq_find (h : String) (l : List Resolver)
    (hinv : ∀ x ∈ l, x.path ≠ none) :
    resolver_lookup h l = some (l.find? (fun x => x.path == some h)) := by
  induction l with
  | nil => rfl
  | cons x rest ih =>
    have hrest := ih (fun y hy => hinv y (List.mem_cons_of_mem _ hy))
    rcases hx : x.path with _ | p
    · exact absurd hx (hinv x (List.mem_cons_self _ _))
    · by_cases hp : p = h
      · simp [resolver_lookup, hx, hp, List.find?]
      · have hb : (p == h) = false := by simpa using hp
        simp [resolver_lookup, hx, hp, List.find?, hrest, hb]

/-- Once the lookup loop of `avahi_service_resolver_event` has stopped at `r`,
the router returns, leaves the session unchanged and invokes no callback or
the callback of `r` once; for a timeout notification it invokes it. -/
theorem service_event_calls (X : Ext) (client : AvahiClient) (event : AvahiResolverEvent)
    (message : DBusMessage) (h : String) (found : Option Resolver)
    (hpath : message.path = some h)
    (hlookup : resolver_lookup h client.service_resolvers = some found) :
    ∃ res, avahi_service_resolver_event X client event message = some res ∧
      res.client = client ∧
      (res.calls = [] ∨ ∃ c, res.calls = [c] ∧ found = some c.r) ∧
      (event = .AVAHI_RESOLVER_TIMEOUT → res.calls.map (fun c => c.r) = found.toList) := by
  rcases found with _ | r
  · refine ⟨{ client := client, ret := .DBUS_HANDLER_RESULT_NOT_YET_HANDLED, calls := [] },
      ?_, rfl, Or.inl rfl, fun _ => rfl⟩
    simp [avahi_service_resolver_event, hpath, hlookup]
  · cases event
    · simp only [avahi_service_resolver_event, hpath, hlookup]
      repeat' split
      all_goals simp
    · simp [avahi_service_resolver_event, hpath, hlookup]

/-- Once the lookup loop of `avahi_host_name_resolver_event` has stopped at `r`,
the router returns, leaves the session unchanged and invokes no callback or
the callback of `r` once; for a timeout notification it invokes it. -/
theorem host_name_event_calls (X : Ext) (client : AvahiClient) (event : AvahiResolverEvent)
    (message : DBusMessage) (h : String) (found : Option Resolver)
    (hpath : message.path = some h)
    (hlookup : resolver_lookup h client.host_name_resolvers = some found) :
    ∃ res, avahi_host_name_resolver_event X client event message = some res ∧
      res.client = client ∧
      (res.calls = [] ∨ ∃ c, res.calls = [c] ∧ found = some c.r) ∧
      (event = .AVAHI_RESOLVER_TIMEOUT → res.calls.map (fun c => c.r) = found.toList) := by
  rcases found with _ | r
  · refine ⟨{ client := client, ret := .DBUS_HANDLER_RESULT_NOT_YET_HANDLED, calls := [] },
      ?_, rfl, Or.inl rfl, fun _ => rfl⟩
    simp [avahi_host_name_resolver_event, hpath, hlookup]
  · cases event
    · simp only [avahi_host_name_resolver_event, hpath, hlookup]
      repeat' split
      all_goals simp
    · simp [avahi_host_name_resolver_event, hpath, hlookup]

/-- Once the lookup loop of `avahi_address_resolver_event` has stopped at `r`,
the router returns, leaves the session unchanged and invokes no callback or
the callback of `r` once; for a timeout notification it invokes it. -/
theorem address_event_calls (X : Ext) (client : AvahiClient) (event : AvahiResolverEvent)
    (message : DBusMessage) (h : String) (found : Option Resolver)
    (hpath : message.path = some h)
    (hlookup : resolver_lookup h client.address_resolvers = some found) :
    ∃ res, avahi_address_resolver_event X client event message = some res ∧
      res.client = client ∧
      (res.calls = [] ∨ ∃ c, res.calls = [c] ∧ found = some c.r) ∧
      (event = .AVAHI_RESOLVER_TIMEOUT → res.calls.map (fun c => c.r) = found.toList) := by
  rcases found with _ | r
  · refine ⟨{ client := client, ret := .DBUS_HANDLER_RESULT_NOT_YET_HANDLED, calls := [] },
      ?_, rfl, Or.inl rfl, fun _ => rfl⟩
    simp [avahi_address_resolver_event, hpath, hlookup]
  · cases event
    · simp only [avahi_address_resolver_event, hpath, hlookup]
      repeat' split
      all_goals simp
    · simp [avahi_address_resolver_event, hpath, hlookup]


/-- C11: let the notification be addressed to `h`.  In a registry whose
operations all have a handle, several of them possibly the same one, each of
the three routers returns, leaves the session unchanged and invokes at most
one callback; the operation whose callback it invokes is the first operation
in registry order whose handle is `h`, and a timeout notification is
dispatched to exactly that operation when there is one.  After a creation
call that succeeds with a reply carrying `h`, the operation just created
stands in front of the registry, so a timeout notification for `h` is
dispatched to it and to no operation created earlier, whatever handles those
carry. -/
theorem C11_first_match_dispatch (X : Ext) (E : NewEnv) (client : AvahiClient)
    (event : AvahiResolverEvent) (message : DBusMessage) (h : String)
    (interface protocol aprotocol : Int) (name type address : String) (domain : Option String)
    (callback userdata addr : Nat) (r_uninit : Option Resolver)
    (reply : DBusMessage) (more : List DBusValue)
    (hpath : message.path = some h) :
    ((∀ x ∈ client.service_resolvers, x.path ≠ none) →
      ∃ res, avahi_service_resolver_event X client event message = some res ∧
        res.client = client ∧
        (res.calls = [] ∨ ∃ c, res.calls = [c] ∧
          client.service_resolvers.find? (fun x => x.path == some h) = some c.r) ∧
        (event = .AVAHI_RESOLVER_TIMEOUT →
          res.calls.map (fun c => c.r) =
            (client.service_resolvers.find? (fun x => x.path == some h)).toList)) ∧
    ((∀ x ∈ client.host_name_resolvers, x.path ≠ none) →
      ∃ res, avahi_host_name_resolver_event X client event message = some res ∧
        res.client = client ∧
        (res.calls = [] ∨ ∃ c, res.calls = [c] ∧
          client.host_name_resolvers.find? (fun x => x.path == some h) = some c.r) ∧
        (event = .AVAHI_RESOLVER_TIMEOUT →
          res.calls.map (fun c => c.r) =
            (client.host_name_resolvers.find? (fun x => x.path == some h)).toList)) ∧
    ((∀ x ∈ client.address_resolvers, x.path ≠ none) →
      ∃ res, avahi_address_resolver_event X client event message = some res ∧
        res.client = client ∧
        (res.calls = [] ∨ ∃ c, res.calls = [c] ∧
          client.address_resolvers.find? (fun x => x.path == some h) = some c.r) ∧
        (event = .AVAHI_RESOLVER_TIMEOUT →
          res.calls.map (fun c => c.r) =
            (client.address_resolvers.find? (fun x => x.path == some h)).toList)) ∧
    (client.state ≠ .AVAHI_CLIENT_DISCONNECTED → E.avahi_new = some addr →
      E.dbus_message_new_method_call = true → E.dbus_message_append_args = true →
      E.reply = some reply → E.reply_error = none →
      reply.args = ⟨.object_path, h⟩ :: more → E.avahi_strdup = true →
      (avahi_service_resolver_event X
          (avahi_service_resolver_new X E client interface protocol name type domain aprotocol
            callback userdata r_uninit).client
          .AVAHI_RESOLVER_TIMEOUT message).map (fun res => res.calls.map (fun c => c.r)) =
        some [⟨addr, callback, userdata, some h⟩] ∧
      (avahi_host_name_resolver_event X
          (avahi_host_name_resolver_new X E client interface protocol name aprotocol
            callback userdata r_uninit).client
          .AVAHI_RESOLVER_TIMEOUT message).map (fun res => res.calls.map (fun c => c.r)) =
        some [⟨addr, callback, userdata, some h⟩] ∧
      (avahi_address_resolver_event X
          (avahi_address_resolver_new X E client interface protocol address
            callback userdata r_uninit).client
          .AVAHI_RESOLVER_TIMEOUT message).map (fun res => res.calls.map (fun c => c.r)) =
        some [⟨addr, callback, userdata, some h⟩]) := by
  refine ⟨?_, ?_, ?_, ?_⟩
  · intro hinv
    exact service_event_calls X client event message h _ hpath
      (resolver_lookup_eq_find h _ hinv)
  · intro hinv
    exact host_name_event_calls X client event message h _ hpath
      (resolver_lookup_eq_find h _ hinv)
  · intro hinv
    exact address_event_calls X client event message h _ hpath
      (resolver_lookup_eq_find h _ hinv)
  · intro hstate hnew hmsg happ hreply herr hargs hdup
    refine ⟨?_, ?_, ?_⟩
    · simp [avahi_service_resolver_new, hstate, hnew, hmsg, happ, hreply, herr, hargs, hdup,
        get_args_object_path, AVAHI_LLIST_PREPEND, resolver_store,
        avahi_service_resolver_event, hpath, resolver_lookup]
    · simp [avahi_host_name_resolver_new, hstate, hnew, hmsg, happ, hreply, herr, hargs, hdup,
        get_args_object_path, AVAHI_LLIST_PREPEND, resolver_store,
        avahi_host_name_resolver_event, hpath, resolver_lookup]
    · simp [avahi_address_resolver_new, hstate, hnew, hmsg, happ, hreply, herr, hargs, hdup,
        get_args_object_path, AVAHI_LLIST_PREPEND, resolver_store,
        avahi_address_resolver_event, hpath, resolver_lookup]

/-- Witness of C11: two pending host name resolvers carry the handle `/h/1`;
a timeout notification for `/h/1` invokes one callback, that of the first of
the two.  And on the sample session, where a host name resolver with handle
`/h/1` is pending, a creation call answered with `/h/1` again puts the new
operation in front, and the timeout notification goes to the new operation. -/
theorem C11_first_match_dispatch_witness :
    (∃ res, avahi_host_name_resolver_event sample_ext sample_twins .AVAHI_RESOLVER_TIMEOUT
          ⟨some "/h/1", []⟩ = some res ∧
        res.client = sample_twins ∧
        (res.calls = [] ∨ ∃ c, res.calls = [c] ∧
          sample_twins.host_name_resolvers.find? (fun x => x.path == some "/h/1") =
            some c.r) ∧
        (AvahiResolverEvent.AVAHI_RESOLVER_TIMEOUT = .AVAHI_RESOLVER_TIMEOUT →
          res.calls.map (fun c => c.r) =
            (sample_twins.host_name_resolvers.find? (fun x => x.path == some "/h/1")).toList)) ∧
    sample_twins.host_name_resolvers.find? (fun x => x.path == some "/h/1") =
      some ⟨2, 20, 200, some "/h/1"⟩ ∧
    (avahi_host_name_resolver_event sample_ext
        (avahi_host_name_resolver_new sample_ext sample_env_same_handle sample_client 2 0
          "printer.local" 0 11 111 none).client
        .AVAHI_RESOLVER_TIMEOUT ⟨some "/h/1", []⟩).map
        (fun res => res.calls.map (fun c => c.r)) =
      some [⟨7, 11, 111, some "/h/1"⟩] :=
  ⟨(C11_first_match_dispatch sample_ext sample_env_same_handle sample_twins
      .AVAHI_RESOLVER_TIMEOUT ⟨some "/h/1", []⟩ "/h/1" 2 0 0 "printer.local" "_ipp._tcp"
      "192.0.2.5" none 11 111 7 none ⟨none, [⟨.object_path, "/h/1"⟩]⟩ [] rfl).2.1
      (by decide),
    by decide,
    ((C11_first_match_dispatch sample_ext sample_env_same_handle sample_client
      .AVAHI_RESOLVER_TIMEOUT ⟨some "/h/1", []⟩ "/h/1" 2 0 0 "printer.local" "_ipp._tcp"
      "192.0.2.5" none 11 111 7 none ⟨none, [⟨.object_path, "/h/1"⟩]⟩ [] rfl).2.2.2
      (by decide) rfl rfl rfl rfl rfl rfl rfl).2.1⟩

end Avahi
